import Mathlib

/-!
Shallow embedding of the radius-mcp protocol dispatch engine.

The repository exposes Radius CLI tools over JSON-RPC 2.0 (MCP).  The
definitions below are translated from the Python sources:

* `Stdio` embeds `radius-mcp-server-python/stdio_mcp_server.py`
  (its tool registry `TOOLS`, the metadata block `METADATA`, the runner
  `execute_radius_command`, and the dispatcher `handle_request`).
* `MainSrv` embeds the runner `execute_radius_tool` and the SSE client
  queue registry of `radius-mcp-server-python/main.py`.
* `Wrapper` embeds the JSON-RPC / legacy dispatch performed by
  `MCPRequestHandler.do_POST` in
  `radius-mcp-server-python/claude_mcp_wrapper.py` together with its own
  `execute_radius_command` variant.

Decoded JSON values are represented by the inductive `Json`.  Python
dynamic-typing failures (AttributeError on `.get` of a non-dict,
TypeError on unhashable dict membership) are modelled in an `Except PyErr`
monad; `try`/`except` blocks of the source become `match` on that monad.
The external world (the `rad` binary located at startup, `subprocess.run`,
`json.loads`) is an explicit environment `ExecEnv`.
-/

/-- Decoded JSON value (the result of `json.loads`); object fields keep
insertion order, as Python dicts do. -/
inductive Json where
  | null : Json
  | bool : Bool → Json
  | num : Int → Json
  | str : String → Json
  | arr : List Json → Json
  | obj : List (String × Json) → Json

/-- First-match association lookup in a JSON object's field list. -/
def jsonLookup : List (String × Json) → String → Option Json
  | [], _ => none
  | (k, v) :: rest, key => if k == key then some v else jsonLookup rest key

/-- `d.get(key, dflt)` on a JSON object (total version, for statements). -/
def Json.getD (j : Json) (key : String) (dflt : Json) : Json :=
  match j with
  | .obj fs => (jsonLookup fs key).getD dflt
  | _ => dflt

/-- `key in d` for a JSON object. -/
def Json.hasKey (j : Json) (key : String) : Bool :=
  match j with
  | .obj fs => (jsonLookup fs key).isSome
  | _ => false

/-- `d[key]` as an `Option` (for statements). -/
def Json.lookupKey (j : Json) (key : String) : Option Json :=
  match j with
  | .obj fs => jsonLookup fs key
  | _ => none

/-- Is this JSON value an object? -/
def Json.isObj : Json → Bool
  | .obj _ => true
  | _ => false

/-- A Python exception, carrying its message. -/
inductive PyErr where
  | valueError : String → PyErr
  | runtimeError : String → PyErr
  | attributeError : String → PyErr
  | typeError : String → PyErr
  | keyError : String → PyErr
  | exn : String → PyErr

/-- `str(e)` of an exception. -/
def PyErr.msg : PyErr → String
  | .valueError m => m
  | .runtimeError m => m
  | .attributeError m => m
  | .typeError m => m
  | .keyError m => m
  | .exn m => m

/-- Python type name of a decoded JSON value. -/
def pyTypeName : Json → String
  | .null => "NoneType"
  | .bool _ => "bool"
  | .num _ => "int"
  | .str _ => "str"
  | .arr _ => "list"
  | .obj _ => "dict"

/-- Python truthiness of a decoded JSON value. -/
def pyTruthy : Json → Bool
  | .null => false
  | .bool b => b
  | .num n => n != 0
  | .str s => s != ""
  | .arr xs => !xs.isEmpty
  | .obj fs => !fs.isEmpty

/-- `v.get(key, dflt)`: raises AttributeError when `v` is not a dict
(the stored value is returned even when it is `null`, exactly as in
Python, where `dict.get` only falls back to the default on a missing
key). -/
def pyDictGetD (v : Json) (key : String) (dflt : Json) : Except PyErr Json :=
  match v with
  | .obj fs => .ok ((jsonLookup fs key).getD dflt)
  | other => .error (.attributeError
      ("'" ++ pyTypeName other ++ "' object has no attribute 'get'"))

/-- `v in d` for a string-keyed dict `d`: strings are compared with the
keys, other hashable scalars are simply absent, and lists/dicts raise
TypeError (unhashable), as in Python. -/
def pyInKeys (v : Json) (keys : List String) : Except PyErr Bool :=
  match v with
  | .str s => .ok (keys.contains s)
  | .arr _ => .error (.typeError "unhashable type: 'list'")
  | .obj _ => .error (.typeError "unhashable type: 'dict'")
  | _ => .ok false

/-- `s.startswith(p)` on strings (structurally recursive prefix test on
the character lists, so that it evaluates definitionally). -/
def strStartsWith (s p : String) : Bool := p.data.isPrefixOf s.data

/-- `v.startswith(p)`: raises AttributeError when `v` is not a string. -/
def pyStartsWith (v : Json) (p : String) : Except PyErr Bool :=
  match v with
  | .str s => .ok (strStartsWith s p)
  | other => .error (.attributeError
      ("'" ++ pyTypeName other ++ "' object has no attribute 'startswith'"))

/-- `str(v)` as used inside f-strings.  Container rendering is
abbreviated: no code path inspected by a claim interpolates a list or a
dict into a message. -/
def pyStr : Json → String
  | .null => "None"
  | .bool true => "True"
  | .bool false => "False"
  | .num n => toString n
  | .str s => s
  | .arr _ => "[...]"
  | .obj _ => "\x7b...\x7d"

/-- `v == "s"` (Python equality against a string literal). -/
def jsonIsStr (v : Json) (s : String) : Bool :=
  match v with
  | .str t => t == s
  | _ => false

/-- `v is None`. -/
def jsonIsNull : Json → Bool
  | .null => true
  | _ => false

/-- Is this JSON value hashable in Python (usable as the left operand of
`in` against a dict)?  Lists and dicts are not. -/
def pyHashable : Json → Bool
  | .arr _ => false
  | .obj _ => false
  | _ => true

/-- Result of `subprocess.run(..., capture_output=True, text=True)`. -/
structure SubpResult where
  returncode : Int
  stdout : String
  stderr : String

/-- The external world as seen by the servers: the `rad` path discovered
at startup (`RAD_PATH`, `none` when the binary was not found), the
behaviour of `subprocess.run` on a given argument vector (`Except.error`
models an exception raised by `subprocess.run` itself), and `json.loads`
on tool output (`none` models `json.JSONDecodeError`). -/
structure ExecEnv where
  radPath : Option String
  run : List Json → Except String SubpResult
  parse : String → Option Json

/-- `RAD_AVAILABLE = RAD_PATH is not None`. -/
def ExecEnv.radAvailable (env : ExecEnv) : Bool := env.radPath.isSome

/-- JSON-RPC success envelope, in the field order the sources build it. -/
def rpcResult (rid r : Json) : Json :=
  .obj [("jsonrpc", .str "2.0"), ("id", rid), ("result", r)]

/-- JSON-RPC error envelope, in the field order the sources build it. -/
def rpcError (rid : Json) (code : Int) (message : Json) : Json :=
  .obj [("jsonrpc", .str "2.0"), ("id", rid),
        ("error", .obj [("code", .num code), ("message", message)])]

/-- The four tool names, i.e. the keys of `TOOLS` in registration order
(identical in `stdio_mcp_server.py` and `claude_mcp_wrapper.py`). -/
def toolKeys : List String :=
  ["radius_version", "radius_list_applications",
   "radius_show_application", "radius_deploy_application"]

/-- Tool descriptions are suffixed when the `rad` binary is missing. -/
def unavailNote (base : String) (avail : Bool) : String :=
  if avail then base else base ++ " (UNAVAILABLE: 'rad' command not found)"

/-- `{"type": "string", "description": "Kubernetes namespace"}`. -/
def namespaceProp : Json :=
  .obj [("type", .str "string"), ("description", .str "Kubernetes namespace")]

/-- `{"type": "string", "description": "Application name"}`. -/
def nameProp : Json :=
  .obj [("type", .str "string"), ("description", .str "Application name")]

/-- `{"type": "string", "description": "Path to the Bicep file"}`. -/
def fileProp : Json :=
  .obj [("type", .str "string"), ("description", .str "Path to the Bicep file")]

/-- The per-tool input schema built by the `getToolSpec` handlers
(`param_schema` in both dispatcher sources; `required` is inserted last,
matching dict insertion order). -/
def paramSchemaFor (tool_name : Json) : Json :=
  if jsonIsStr tool_name "radius_list_applications" then
    .obj [("type", .str "object"),
          ("properties", .obj [("namespace", namespaceProp)]),
          ("additionalProperties", .bool false)]
  else if jsonIsStr tool_name "radius_show_application" then
    .obj [("type", .str "object"),
          ("properties", .obj [("name", nameProp), ("namespace", namespaceProp)]),
          ("additionalProperties", .bool false),
          ("required", .arr [.str "name"])]
  else if jsonIsStr tool_name "radius_deploy_application" then
    .obj [("type", .str "object"),
          ("properties", .obj [("file", fileProp), ("name", nameProp),
                               ("namespace", namespaceProp)]),
          ("additionalProperties", .bool false),
          ("required", .arr [.str "file"])]
  else
    .obj [("type", .str "object"), ("properties", .obj []),
          ("additionalProperties", .bool false)]

/-- The fixed `outputSchema` returned by `getToolSpec` in both
dispatcher sources. -/
def outputSchemaJson : Json :=
  .obj [("type", .str "object"),
        ("properties", .obj
          [("output", .obj [("type", .str "string"),
                            ("description", .str "Command output")]),
           ("data", .obj [("type", .arr [.str "object", .str "array", .str "null"]),
                          ("description", .str "Parsed JSON data (if available)")])])]

namespace Stdio

/-- `RadiusTool` of `stdio_mcp_server.py` (the unused `schema` field,
always `{}` at every construction site, is omitted). -/
structure RadiusTool where
  name : String
  description : String
  command : String
  args : List String

/-- The `TOOLS` dict of `stdio_mcp_server.py`, an insertion-ordered map
from tool name to `RadiusTool`; command and descriptions depend on the
startup `rad` discovery. -/
def TOOLS (env : ExecEnv) : List (String × RadiusTool) :=
  let cmd := env.radPath.getD "rad"
  let avail := env.radAvailable
  [("radius_version",
    ⟨"radius_version", unavailNote "Get the Radius CLI version" avail, cmd, ["version"]⟩),
   ("radius_list_applications",
    ⟨"radius_list_applications", unavailNote "List all Radius applications" avail, cmd,
     ["app", "list"]⟩),
   ("radius_show_application",
    ⟨"radius_show_application", unavailNote "Get details of a Radius application" avail, cmd,
     ["app", "show"]⟩),
   ("radius_deploy_application",
    ⟨"radius_deploy_application", unavailNote "Deploy a Radius application" avail, cmd,
     ["deploy"]⟩)]

/-- `METADATA["title"]`. -/
def metadataTitle : String := "Radius MCP Server (stdio)"

/-- `METADATA["description"]`. -/
def metadataDescription (env : ExecEnv) : String :=
  if env.radAvailable then "Access Radius CLI tools for managing applications"
  else "Access Radius CLI tools for managing applications (NOTE: 'rad' command not found in PATH)"

/-- `METADATA["tools"]`: name/description projection of `TOOLS`. -/
def metadataTools (env : ExecEnv) : Json :=
  .arr ((TOOLS env).map (fun p =>
    .obj [("name", .str p.1), ("description", .str p.2.description)]))

/-- The `METADATA` value of `stdio_mcp_server.py`. -/
def METADATA (env : ExecEnv) : Json :=
  .obj [("title", .str metadataTitle),
        ("description", .str (metadataDescription env)),
        ("tools", metadataTools env),
        ("version", .str "1.0.0")]

/-- The mock `ToolResult` returned by `execute_radius_command` when the
`rad` binary was not found at startup. -/
def degradedResult (tool_name : Json) : Json :=
  .obj [("output", .str ("ERROR: Cannot execute " ++ pyStr tool_name ++
           " because 'rad' command is not available in PATH.\nPlease make sure the Radius CLI is installed and in your PATH.")),
        ("error", .str "Radius CLI ('rad') not found")]

/-- The `try: subprocess.run(...) ...` tail of `execute_radius_command`:
run the command, surface failures through the `error` field, and attach
parsed JSON `data` for the two list/show tools. -/
def runPhase (env : ExecEnv) (tool_name : Json) (command_args : List Json) : Json :=
  match env.run command_args with
  | .error e =>
      let msg := "Error executing command: " ++ e
      .obj [("output", .str msg), ("error", .str msg)]
  | .ok result =>
      if result.returncode != 0 then
        let msg := "Command failed with exit code " ++ toString result.returncode ++
          ": " ++ result.stderr.trim
        .obj [("output", .str msg), ("error", .str msg)]
      else
        let output := result.stdout.trim
        if (jsonIsStr tool_name "radius_list_applications" ||
            jsonIsStr tool_name "radius_show_application")
            && output != "" && (strStartsWith output "\x7b" || strStartsWith output "[") then
          match env.parse output with
          | some d => .obj [("output", .str output), ("data", d)]
          | none => .obj [("output", .str output)]
        else
          .obj [("output", .str output)]

/-- `TOOLS[tool_name]` (dict subscript: KeyError when absent). -/
def toolsSubscript (env : ExecEnv) (tool_name : Json) : Except PyErr RadiusTool :=
  match tool_name with
  | .str s =>
      match (TOOLS env).find? (fun p => p.1 == s) with
      | some p => Except.ok p.2
      | none => Except.error (.keyError s)
  | other => Except.error (.keyError (pyStr other))

/-- `execute_radius_command` of `stdio_mcp_server.py`: the tool runner.
Unknown tools and missing required parameters are reported through the
`error` field; when `rad` is unavailable the degraded mock result is
returned before any parameter validation. -/
def execute_radius_command (env : ExecEnv) (tool_name : Json) (params0 : Json) :
    Except PyErr Json := do
  let params := if pyTruthy params0 then params0 else Json.obj []
  let known ← pyInKeys tool_name ((TOOLS env).map Prod.fst)
  if known = false then
    return Json.obj [("error", .str ("Unknown tool: " ++ pyStr tool_name))]
  if env.radAvailable = false then
    return degradedResult tool_name
  let tool ← toolsSubscript env tool_name
  let base : List Json := Json.str tool.command :: tool.args.map Json.str
  if jsonIsStr tool_name "radius_list_applications" then
    let ns ← pyDictGetD params "namespace" Json.null
    let args := base ++ (if pyTruthy ns then [Json.str "-n", ns] else [])
    return runPhase env tool_name args
  else if jsonIsStr tool_name "radius_show_application" then
    let nm ← pyDictGetD params "name" Json.null
    if pyTruthy nm = false then
      return Json.obj [("error", Json.str "Application name is required")]
    let ns ← pyDictGetD params "namespace" Json.null
    let args := base ++ [nm] ++ (if pyTruthy ns then [Json.str "-n", ns] else [])
    return runPhase env tool_name args
  else if jsonIsStr tool_name "radius_deploy_application" then
    let file ← pyDictGetD params "file" Json.null
    if pyTruthy file = false then
      return Json.obj [("error", Json.str "Bicep file path is required")]
    let nm ← pyDictGetD params "name" Json.null
    let ns ← pyDictGetD params "namespace" Json.null
    let args := base ++ [file] ++ (if pyTruthy nm then [Json.str "-n", nm] else [])
                ++ (if pyTruthy ns then [Json.str "--namespace", ns] else [])
    return runPhase env tool_name args
  else
    return runPhase env tool_name base

/-- The `initialize` result of the stdio dispatcher. -/
def initializeResult (env : ExecEnv) (pv : Json) : Json :=
  .obj [("protocolVersion", pv),
        ("capabilities", .obj [("schema", .str "2023-07-01")]),
        ("serverInfo", .obj [("name", .str "Radius MCP Server (stdio)"),
                             ("version", .str "1.0.0")]),
        ("metadata", .obj [("title", .str metadataTitle),
                           ("description", .str (metadataDescription env)),
                           ("tools", metadataTools env)])]

/-- The `getToolSpec` result for a known tool. -/
def toolSpecResult (tool_name : Json) (tool : RadiusTool) : Json :=
  .obj [("name", tool_name), ("description", .str tool.description),
        ("inputSchema", paramSchemaFor tool_name),
        ("outputSchema", outputSchemaJson)]

/-- The `getToolSpec` method branch of `handle_request`. -/
def getToolSpecBranch (env : ExecEnv) (request_id tool_name : Json) :
    Except PyErr Json := do
  let known ← pyInKeys tool_name ((TOOLS env).map Prod.fst)
  if known then
    let tool ← toolsSubscript env tool_name
    return rpcResult request_id (toolSpecResult tool_name tool)
  else
    return rpcError request_id (-32602) (.str ("Unknown tool: " ++ pyStr tool_name))

/-- The body of the inner `try` of the `executeTool` method branch of
`handle_request`: run the tool and route the result, downgrading the
degraded-capability failure to a successful result. -/
def executeToolBranch (env : ExecEnv) (request_id tool_name tool_params : Json) :
    Except PyErr Json := do
  let known ← pyInKeys tool_name ((TOOLS env).map Prod.fst)
  if known then
    let result ← execute_radius_command env tool_name tool_params
    if result.hasKey "error" then
      if env.radAvailable = false then
        return rpcResult request_id result
      else
        return rpcError request_id (-32000) (result.getD "error" Json.null)
    else
      return rpcResult request_id result
  else
    return rpcError request_id (-32602) (.str ("Unknown tool: " ++ pyStr tool_name))

/-- The JSON-RPC method routing chain of `handle_request` (everything
after the notification check). -/
def rpcRoute (env : ExecEnv) (request_id method params : Json) :
    Except PyErr (Option Json) := do
  if jsonIsStr method "initialize" then
    let pv ← pyDictGetD params "protocolVersion" (Json.str "2023-07-01")
    return some (rpcResult request_id (initializeResult env pv))
  else if jsonIsStr method "getMetadata" then
    return some (rpcResult request_id (METADATA env))
  else if jsonIsStr method "getToolSpec" then
    let tool_name ← pyDictGetD params "toolName" (Json.str "")
    let resp ← getToolSpecBranch env request_id tool_name
    return some resp
  else if jsonIsStr method "executeTool" then
    let tool_name ← pyDictGetD params "toolName" (Json.str "")
    let tool_params ← pyDictGetD params "toolParams" (Json.obj [])
    match executeToolBranch env request_id tool_name tool_params with
    | .ok resp => return some resp
    | .error e =>
        return some (rpcError request_id (-32000)
          (.str ("Error executing tool: " ++ e.msg)))
  else
    return some (rpcError request_id (-32601)
      (.str ("Method not found: " ++ pyStr method)))

/-- The legacy (non JSON-RPC) `messageType` branch of `handle_request`. -/
def legacyRoute (env : ExecEnv) (request_data : Json) :
    Except PyErr (Option Json) := do
  let message_type ← pyDictGetD request_data "messageType" Json.null
  if jsonIsStr message_type "getMeta" then
    return some (.obj [("title", .str metadataTitle),
                       ("description", .str (metadataDescription env)),
                       ("tools", metadataTools env)])
  else if jsonIsStr message_type "toolExecution" then
    let tool_name ← pyDictGetD request_data "toolName" Json.null
    let tool_params ← pyDictGetD request_data "parameters" (Json.obj [])
    let known ← pyInKeys tool_name ((TOOLS env).map Prod.fst)
    if known then
      let r ← execute_radius_command env tool_name tool_params
      return some r
    else
      return some (.obj [("error", .str ("Unknown tool: " ++ pyStr tool_name))])
  else
    return some (.obj [("error", .str ("Unknown message type: " ++ pyStr message_type))])

/-- The body of `handle_request` (everything inside its outer `try`):
JSON-RPC classification, notification suppression (`request_id is None
and method.startswith("notifications/")`, with Python's short-circuit
evaluation), then method routing.  `none` means no response
(notification). -/
def handleRequestBody (env : ExecEnv) (request_data : Json) :
    Except PyErr (Option Json) := do
  let jv ← pyDictGetD request_data "jsonrpc" Json.null
  if jsonIsStr jv "2.0" then
    let request_id ← pyDictGetD request_data "id" Json.null
    let method ← pyDictGetD request_data "method" (Json.str "")
    let params ← pyDictGetD request_data "params" (Json.obj [])
    let isNotif ←
      if jsonIsNull request_id then pyStartsWith method "notifications/"
      else pure false
    if isNotif then
      return none
    else
      rpcRoute env request_id method params
  else
    legacyRoute env request_data

/-- `handle_request` of `stdio_mcp_server.py`: the dispatcher, with its
outer catch-all that turns any exception into a bare `{"error": ...}`
response. -/
def handle_request (env : ExecEnv) (request_data : Json) : Option Json :=
  match handleRequestBody env request_data with
  | .ok r => r
  | .error e => some (.obj [("error", .str ("Error processing request: " ++ e.msg))])

/-- The response-writing step of `main` (one request per line): a line is
printed for the response exactly when `handle_request` did not return
`None`. -/
def emittedResponses (env : ExecEnv) (request_data : Json) : List Json :=
  match handle_request env request_data with
  | some r => [r]
  | none => []

end Stdio

namespace MainSrv

/-- `RadiusTool` of `main.py` (the JSON-schema `parameters` block is
registry metadata, never read by `execute_radius_tool`). -/
structure MainTool where
  name : String
  description : String
  command : String
  args : List String
  parameters : Json

/-- The `radius_tools` list of `main.py`, in source order. -/
def radius_tools : List MainTool :=
  [⟨"radius_version", "Get the Radius CLI version", "rad", ["version"],
    .obj [("type", .str "object"), ("properties", .obj [])]⟩,
   ⟨"radius_list_applications", "List all Radius applications", "rad", ["app", "list"],
    .obj [("type", .str "object"),
          ("properties", .obj [("namespace", namespaceProp)])]⟩,
   ⟨"radius_show_application", "Get details of a Radius application", "rad", ["app", "show"],
    .obj [("type", .str "object"),
          ("properties", .obj [("name", nameProp), ("namespace", namespaceProp)]),
          ("required", .arr [.str "name"])]⟩,
   ⟨"radius_deploy_application", "Deploy a Radius application", "rad", ["deploy"],
    .obj [("type", .str "object"),
          ("properties", .obj [("file", fileProp), ("name", nameProp),
                               ("namespace", namespaceProp)]),
          ("required", .arr [.str "file"])]⟩]

/-- `execute_radius_tool` of `main.py`: unlike the stdio runner it
signals failure by raising — ValueError for an unknown tool or a missing
required parameter, RuntimeError when the command exits non-zero
(`check=True` turns that into CalledProcessError, re-raised).  The
`str(e)` of CalledProcessError is abbreviated to its exit-status core;
no claim inspects that message. -/
def execute_radius_tool (env : ExecEnv) (tool_name : String) (params : Json) :
    Except PyErr Json := do
  let selected := radius_tools.find? (fun t => t.name == tool_name)
  match selected with
  | none => throw (.valueError ("Tool not found: " ++ tool_name))
  | some tool =>
    let base : List Json := tool.args.map Json.str
    let args ←
      if tool_name == "radius_list_applications" then do
        let ns ← pyDictGetD params "namespace" Json.null
        pure (base ++ (if pyTruthy ns then [Json.str "-n", ns] else []))
      else if tool_name == "radius_show_application" then do
        let nm ← pyDictGetD params "name" Json.null
        if pyTruthy nm = false then
          throw (.valueError "Application name is required")
        let ns ← pyDictGetD params "namespace" Json.null
        pure (base ++ [nm] ++ (if pyTruthy ns then [Json.str "-n", ns] else []))
      else if tool_name == "radius_deploy_application" then do
        let file ← pyDictGetD params "file" Json.null
        if pyTruthy file = false then
          throw (.valueError "Bicep file path is required")
        let nm ← pyDictGetD params "name" Json.null
        let ns ← pyDictGetD params "namespace" Json.null
        pure (base ++ [file] ++ (if pyTruthy nm then [Json.str "-n", nm] else [])
              ++ (if pyTruthy ns then [Json.str "--namespace", ns] else []))
      else
        pure base
    match env.run (Json.str tool.command :: args) with
    | .error e => throw (.exn e)
    | .ok result =>
      if result.returncode != 0 then
        throw (.runtimeError ("Command execution failed: Command returned non-zero exit status "
          ++ toString result.returncode ++ ". - " ++ result.stderr))
      else
        let output := result.stdout
        if (tool_name == "radius_list_applications" ||
            tool_name == "radius_show_application")
            && (strStartsWith output.trim "\x7b" || strStartsWith output.trim "[") then
          match env.parse output.trim with
          | some d => return Json.obj [("output", .str output), ("data", d)]
          | none => return Json.obj [("output", .str output)]
        else
          return Json.obj [("output", .str output)]

/-- The shared SSE client registry `sse_queues` of `main.py`: an
insertion-ordered map from client id to that client's pending message
queue (all map accesses in the source are serialized by
`sse_queue_lock`, so the sequential model is faithful). -/
abbrev SseHub := List (String × List Json)

/-- Does the hub hold a queue for this client id (`client_id in
sse_queues`)? -/
def hubContains (hub : SseHub) (cid : String) : Bool :=
  hub.any (fun p => p.1 == cid)

/-- The `registerSSEClient` handler's map update: `if client_id not in
sse_queues: sse_queues[client_id] = queue.Queue()`. -/
def registerClient (hub : SseHub) (cid : String) : SseHub :=
  if hubContains hub cid then hub else hub ++ [(cid, [])]

/-- The streaming push of the POST handler: `if client_id in sse_queues:
sse_queues[client_id].put(response_data)` — a silent no-op for an
unknown id. -/
def pushMessage (hub : SseHub) (cid : String) (msg : Json) : SseHub :=
  if hubContains hub cid then
    hub.map (fun p => if p.1 == cid then (p.1, p.2 ++ [msg]) else p)
  else hub

/-- The cleanup in `generate_sse_events`'s `finally` block:
`if client_id in sse_queues: del sse_queues[client_id]`. -/
def unregisterClient (hub : SseHub) (cid : String) : SseHub :=
  if hubContains hub cid then hub.filter (fun p => p.1 != cid) else hub

end MainSrv

namespace Wrapper

/-- The `TOOLS` dict of `claude_mcp_wrapper.py` (same four entries and
strings as the stdio server). -/
def TOOLS (env : ExecEnv) : List (String × Stdio.RadiusTool) :=
  let cmd := env.radPath.getD "rad"
  let avail := env.radAvailable
  [("radius_version",
    ⟨"radius_version", unavailNote "Get the Radius CLI version" avail, cmd, ["version"]⟩),
   ("radius_list_applications",
    ⟨"radius_list_applications", unavailNote "List all Radius applications" avail, cmd,
     ["app", "list"]⟩),
   ("radius_show_application",
    ⟨"radius_show_application", unavailNote "Get details of a Radius application" avail, cmd,
     ["app", "show"]⟩),
   ("radius_deploy_application",
    ⟨"radius_deploy_application", unavailNote "Deploy a Radius application" avail, cmd,
     ["deploy"]⟩)]

/-- `METADATA["title"]` of the wrapper. -/
def metadataTitle : String := "Radius MCP Server"

/-- `METADATA["tools"]` of the wrapper. -/
def metadataTools (env : ExecEnv) : Json :=
  .arr ((TOOLS env).map (fun p =>
    .obj [("name", .str p.1), ("description", .str p.2.description)]))

/-- The `METADATA` value of `claude_mcp_wrapper.py`. -/
def METADATA (env : ExecEnv) : Json :=
  .obj [("title", .str metadataTitle),
        ("description", .str (Stdio.metadataDescription env)),
        ("tools", metadataTools env),
        ("version", .str "1.0.0")]

/-- `TOOLS[tool_name]` in the wrapper. -/
def toolsSubscript (env : ExecEnv) (tool_name : Json) : Except PyErr Stdio.RadiusTool :=
  match tool_name with
  | .str s =>
      match (TOOLS env).find? (fun p => p.1 == s) with
      | some p => Except.ok p.2
      | none => Except.error (.keyError s)
  | other => Except.error (.keyError (pyStr other))

/-- `execute_radius_command` of `claude_mcp_wrapper.py`: same structure
as the stdio runner but with the wrapper's own parameter names (`group`,
`application`, `environment`) and flags. -/
def execute_radius_command (env : ExecEnv) (tool_name : Json) (params0 : Json) :
    Except PyErr Json := do
  let params := if pyTruthy params0 then params0 else Json.obj []
  let known ← pyInKeys tool_name ((TOOLS env).map Prod.fst)
  if known = false then
    return Json.obj [("error", .str ("Unknown tool: " ++ pyStr tool_name))]
  if env.radAvailable = false then
    return Stdio.degradedResult tool_name
  let tool ← toolsSubscript env tool_name
  let base : List Json := Json.str tool.command :: tool.args.map Json.str
  if jsonIsStr tool_name "radius_list_applications" then
    let g ← pyDictGetD params "group" Json.null
    let args := base ++ (if pyTruthy g then [Json.str "-g", g] else [])
    return Stdio.runPhase env tool_name args
  else if jsonIsStr tool_name "radius_show_application" then
    let app ← pyDictGetD params "application" Json.null
    if pyTruthy app = false then
      return Json.obj [("error", Json.str "Application name is required")]
    let app2 ← pyDictGetD params "application" Json.null
    let args := base ++ [app] ++ (if pyTruthy app2 then [Json.str "-a", app2] else [])
    return Stdio.runPhase env tool_name args
  else if jsonIsStr tool_name "radius_deploy_application" then
    let file ← pyDictGetD params "file" Json.null
    if pyTruthy file = false then
      return Json.obj [("error", Json.str "File path is required")]
    let app ← pyDictGetD params "application" Json.null
    let e ← pyDictGetD params "environment" Json.null
    let args := base ++ [file] ++ (if pyTruthy app then [Json.str "-a", app] else [])
                ++ (if pyTruthy e then [Json.str "-e", e] else [])
    return Stdio.runPhase env tool_name args
  else
    return Stdio.runPhase env tool_name base

/-- The wrapper's `initialize` result (no embedded metadata block). -/
def initializeResult (pv : Json) : Json :=
  .obj [("protocolVersion", pv),
        ("capabilities", .obj [("schema", .str "2024-11-05")]),
        ("serverInfo", .obj [("name", .str "Radius MCP Server"),
                             ("version", .str "1.0.0")])]

/-- The wrapper's `getToolSpec` branch. -/
def getToolSpecBranch (env : ExecEnv) (request_id tool_name : Json) :
    Except PyErr Json := do
  let known ← pyInKeys tool_name ((TOOLS env).map Prod.fst)
  if known then
    let tool ← toolsSubscript env tool_name
    return rpcResult request_id
      (.obj [("name", tool_name), ("description", .str tool.description),
             ("inputSchema", paramSchemaFor tool_name),
             ("outputSchema", outputSchemaJson)])
  else
    return rpcError request_id (-32602) (.str ("Unknown tool: " ++ pyStr tool_name))

/-- The body of the wrapper's inner `try` around tool execution. -/
def executeToolBranch (env : ExecEnv) (request_id tool_name tool_params : Json) :
    Except PyErr Json := do
  let known ← pyInKeys tool_name ((TOOLS env).map Prod.fst)
  if known then
    let result ← execute_radius_command env tool_name tool_params
    if result.hasKey "error" then
      if env.radAvailable = false then
        return rpcResult request_id result
      else
        return rpcError request_id (-32000) (result.getD "error" Json.null)
    else
      return rpcResult request_id result
  else
    return rpcError request_id (-32602) (.str ("Unknown tool: " ++ pyStr tool_name))

/-- The wrapper's JSON-RPC method routing chain (`do_POST` has no
notification concept: every request gets a response). -/
def rpcRoute (env : ExecEnv) (request_id method params : Json) : Except PyErr Json := do
  if jsonIsStr method "initialize" then
    let pv ← pyDictGetD params "protocolVersion" (Json.str "2024-11-05")
    return rpcResult request_id (initializeResult pv)
  else if jsonIsStr method "getMetadata" then
    return rpcResult request_id (METADATA env)
  else if jsonIsStr method "getToolSpec" then
    let tool_name ← pyDictGetD params "toolName" (Json.str "")
    getToolSpecBranch env request_id tool_name
  else if jsonIsStr method "executeTool" then
    let tool_name ← pyDictGetD params "toolName" (Json.str "")
    let tool_params ← pyDictGetD params "toolParams" (Json.obj [])
    match executeToolBranch env request_id tool_name tool_params with
    | .ok resp => return resp
    | .error e =>
        return rpcError request_id (-32000)
          (.str ("Error executing tool: " ++ e.msg))
  else
    return rpcError request_id (-32601) (.str ("Method not found: " ++ pyStr method))

/-- The wrapper's legacy `messageType` branch. -/
def legacyRoute (env : ExecEnv) (request : Json) : Except PyErr Json := do
  let message_type ← pyDictGetD request "messageType" Json.null
  if jsonIsStr message_type "registerSSEClient" then
    return Json.obj [("status", .str "registered")]
  else if jsonIsStr message_type "getMeta" then
    return Json.obj [("title", .str metadataTitle), ("tools", metadataTools env)]
  else if jsonIsStr message_type "toolExecution" then
    let tool_name ← pyDictGetD request "toolName" Json.null
    let tool_params ← pyDictGetD request "parameters" (Json.obj [])
    let known ← pyInKeys tool_name ((TOOLS env).map Prod.fst)
    if known then
      execute_radius_command env tool_name tool_params
    else
      return Json.obj [("error", .str ("Unknown tool: " ++ pyStr tool_name))]
  else
    return Json.obj [("error", .str ("Unknown message type: " ++ pyStr message_type))]

/-- The request-handling body of `MCPRequestHandler.do_POST` (after the
body has been parsed as JSON): JSON-RPC routing — with no notification
concept — or the legacy `messageType` branch. -/
def handlePostBody (env : ExecEnv) (request : Json) : Except PyErr Json := do
  let jv ← pyDictGetD request "jsonrpc" Json.null
  if jsonIsStr jv "2.0" then
    let request_id ← pyDictGetD request "id" Json.null
    let method ← pyDictGetD request "method" (Json.str "")
    let params ← pyDictGetD request "params" (Json.obj [])
    rpcRoute env request_id method params
  else
    legacyRoute env request

/-- `do_POST`'s response for a parsed request body, with the handler's
catch-all (`except Exception`) that writes a bare `{"error": ...}`
object.  The wrapper always writes exactly one response. -/
def handle_post (env : ExecEnv) (request : Json) : Json :=
  match handlePostBody env request with
  | .ok r => r
  | .error e => .obj [("error", .str ("Error processing request: " ++ e.msg))]

end Wrapper

/-- The tool names advertised by a `getMetadata` (or legacy `getMeta`)
response: the `name` fields of the entries of the `tools` array of its
`result`. -/
def responseToolNames (resp : Option Json) : List String :=
  match resp with
  | none => []
  | some r =>
      match (r.getD "result" Json.null).getD "tools" Json.null with
      | .arr ts => ts.filterMap (fun t =>
          match t.lookupKey "name" with
          | some (Json.str s) => some s
          | _ => none)
      | _ => []

/-- A concrete environment in which the `rad` binary was found and every
command succeeds with empty output. -/
def envFound : ExecEnv :=
  ⟨some "/usr/local/bin/rad", fun _ => .ok ⟨0, "", ""⟩, fun _ => none⟩

/-- A concrete environment in which the `rad` binary was not found. -/
def envMissing : ExecEnv :=
  ⟨none, fun _ => .ok ⟨0, "", ""⟩, fun _ => none⟩

/-! ## Helper lemmas -/

theorem except_bind_ok {ε α β : Type} (a : α) (f : α → Except ε β) :
    (Except.ok a : Except ε α) >>= f = f a := rfl

theorem except_bind_error {ε α β : Type} (e : ε) (f : α → Except ε β) :
    (Except.error e : Except ε α) >>= f = Except.error e := rfl

theorem except_pure {ε α : Type} (a : α) :
    (pure a : Except ε α) = Except.ok a := rfl

theorem pyDictGetD_obj (fs : List (String × Json)) (key : String) (dflt : Json) :
    pyDictGetD (Json.obj fs) key dflt = .ok ((jsonLookup fs key).getD dflt) := rfl

theorem pyInKeys_str (s : String) (keys : List String) :
    pyInKeys (Json.str s) keys = .ok (keys.contains s) := rfl

theorem pyStartsWith_str (s p : String) :
    pyStartsWith (Json.str s) p = .ok (strStartsWith s p) := rfl

theorem jsonGetD_obj (fs : List (String × Json)) (key : String) (dflt : Json) :
    Json.getD (Json.obj fs) key dflt = (jsonLookup fs key).getD dflt := rfl

/-! ### Reduction lemmas for the stdio dispatcher -/

theorem stdio_notification_none (env : ExecEnv) (fields : List (String × Json)) (m : String)
    (hrpc : (jsonLookup fields "jsonrpc").getD Json.null = Json.str "2.0")
    (hid : (jsonLookup fields "id").getD Json.null = Json.null)
    (hm : (jsonLookup fields "method").getD (Json.str "") = Json.str m)
    (hpre : strStartsWith m "notifications/" = true) :
    Stdio.handle_request env (Json.obj fields) = none := by
  have hbody : Stdio.handleRequestBody env (Json.obj fields) = .ok none := by
    simp only [Stdio.handleRequestBody]
    simp only [pyDictGetD_obj]
    simp only [except_bind_ok]
    simp only [hrpc]
    simp only [jsonIsStr]
    simp only [beq_self_eq_true]
    simp only [if_true, ite_true]
    simp only [hid, hm]
    simp only [jsonIsNull]
    simp only [eq_self_iff_true, if_true, ite_true]
    simp only [pyStartsWith_str, except_bind_ok]
    simp only [hpre, if_true, ite_true, except_pure]
  simp only [Stdio.handle_request, hbody]

theorem stdio_to_route (env : ExecEnv) (fields : List (String × Json)) (rid mv pv : Json)
    (hrpc : (jsonLookup fields "jsonrpc").getD Json.null = Json.str "2.0")
    (hid : (jsonLookup fields "id").getD Json.null = rid)
    (hm : (jsonLookup fields "method").getD (Json.str "") = mv)
    (hp : (jsonLookup fields "params").getD (Json.obj []) = pv)
    (hnn : (if jsonIsNull rid = true then pyStartsWith mv "notifications/"
            else pure false) = Except.ok false) :
    Stdio.handle_request env (Json.obj fields) =
      (match Stdio.rpcRoute env rid mv pv with
       | .ok r => r
       | .error e => some (.obj [("error", .str ("Error processing request: " ++ e.msg))])) := by
  have hbody : Stdio.handleRequestBody env (Json.obj fields) =
      Stdio.rpcRoute env rid mv pv := by
    simp only [Stdio.handleRequestBody]
    simp only [pyDictGetD_obj]
    simp only [except_bind_ok]
    simp only [hrpc]
    simp only [jsonIsStr]
    simp only [beq_self_eq_true]
    simp only [if_true, ite_true]
    simp only [hid, hm, hp]
    by_cases hn : jsonIsNull rid = true
    · have hsw : pyStartsWith mv "notifications/" = Except.ok false := by
        simpa [hn] using hnn
      simp only [hn, if_true, ite_true]
      simp only [hsw, except_bind_ok]
      simp only [Bool.false_eq_true, if_false, ite_false]
    · have hn2 : jsonIsNull rid = false := by
        cases h : jsonIsNull rid
        · rfl
        · exact absurd h hn
      simp only [hn2, Bool.false_eq_true, if_false, ite_false]
      simp only [except_pure, except_bind_ok]
      simp only [Bool.false_eq_true, if_false, ite_false]
  rw [Stdio.handle_request, hbody]

theorem notif_check_of_not_null (rid mv : Json) (h : jsonIsNull rid = false) :
    (if jsonIsNull rid = true then pyStartsWith mv "notifications/"
     else pure false) = Except.ok false := by
  simp [h, except_pure]

theorem notif_check_of_method (rid : Json) (m : String)
    (h : strStartsWith m "notifications/" = false) :
    (if jsonIsNull rid = true then pyStartsWith (Json.str m) "notifications/"
     else pure false) = Except.ok false := by
  by_cases hn : jsonIsNull rid = true <;> simp [hn, pyStartsWith_str, h, except_pure]

theorem stdio_route_initMethod (env : ExecEnv) (rid : Json) (pfs : List (String × Json)) :
    Stdio.rpcRoute env rid (Json.str "initialize") (Json.obj pfs) =
      .ok (some (rpcResult rid (Stdio.initializeResult env
        ((jsonLookup pfs "protocolVersion").getD (Json.str "2023-07-01"))))) := by
  simp [Stdio.rpcRoute, jsonIsStr, pyDictGetD_obj, except_bind_ok, except_pure]

theorem stdio_route_getMetadata (env : ExecEnv) (rid pv : Json) :
    Stdio.rpcRoute env rid (Json.str "getMetadata") pv =
      .ok (some (rpcResult rid (Stdio.METADATA env))) := by
  simp [Stdio.rpcRoute, jsonIsStr, except_pure]

theorem stdio_route_getToolSpec (env : ExecEnv) (rid : Json) (pfs : List (String × Json)) :
    Stdio.rpcRoute env rid (Json.str "getToolSpec") (Json.obj pfs) =
      (Stdio.getToolSpecBranch env rid ((jsonLookup pfs "toolName").getD (Json.str ""))).map some := by
  simp only [Stdio.rpcRoute, jsonIsStr, pyDictGetD_obj, except_bind_ok]
  simp only [beq_self_eq_true, if_true, ite_true]
  norm_num
  cases Stdio.getToolSpecBranch env rid ((jsonLookup pfs "toolName").getD (Json.str "")) <;>
    simp [Except.map, except_bind_ok, except_bind_error, except_pure]

theorem stdio_route_executeTool (env : ExecEnv) (rid : Json) (pfs : List (String × Json)) :
    Stdio.rpcRoute env rid (Json.str "executeTool") (Json.obj pfs) =
      .ok (match Stdio.executeToolBranch env rid ((jsonLookup pfs "toolName").getD (Json.str ""))
               ((jsonLookup pfs "toolParams").getD (Json.obj [])) with
       | .ok r => some r
       | .error e => some (rpcError rid (-32000) (.str ("Error executing tool: " ++ e.msg)))) := by
  simp only [Stdio.rpcRoute, jsonIsStr, pyDictGetD_obj, except_bind_ok]
  simp only [beq_self_eq_true, if_true, ite_true]
  norm_num
  cases Stdio.executeToolBranch env rid ((jsonLookup pfs "toolName").getD (Json.str ""))
      ((jsonLookup pfs "toolParams").getD (Json.obj [])) <;>
    simp [except_pure]

theorem stdio_route_unknownMethod (env : ExecEnv) (rid pv : Json) (m : String)
    (h1 : m ≠ "initialize") (h2 : m ≠ "getMetadata")
    (h3 : m ≠ "getToolSpec") (h4 : m ≠ "executeTool") :
    Stdio.rpcRoute env rid (Json.str m) pv =
      .ok (some (rpcError rid (-32601) (.str ("Method not found: " ++ m)))) := by
  have b1 : (m == "initialize") = false := by simp [h1]
  have b2 : (m == "getMetadata") = false := by simp [h2]
  have b3 : (m == "getToolSpec") = false := by simp [h3]
  have b4 : (m == "executeTool") = false := by simp [h4]
  simp only [Stdio.rpcRoute, jsonIsStr, b1, b2, b3, b4, Bool.false_eq_true,
    if_false, ite_false, pyStr, except_pure]

/-! ### Reduction lemmas for the wrapper dispatcher -/

theorem wrapper_to_route (env : ExecEnv) (fields : List (String × Json)) (rid mv pv : Json)
    (hrpc : (jsonLookup fields "jsonrpc").getD Json.null = Json.str "2.0")
    (hid : (jsonLookup fields "id").getD Json.null = rid)
    (hm : (jsonLookup fields "method").getD (Json.str "") = mv)
    (hp : (jsonLookup fields "params").getD (Json.obj []) = pv) :
    Wrapper.handle_post env (Json.obj fields) =
      (match Wrapper.rpcRoute env rid mv pv with
       | .ok r => r
       | .error e => .obj [("error", .str ("Error processing request: " ++ e.msg))]) := by
  have hbody : Wrapper.handlePostBody env (Json.obj fields) =
      Wrapper.rpcRoute env rid mv pv := by
    simp only [Wrapper.handlePostBody]
    simp only [pyDictGetD_obj]
    simp only [except_bind_ok]
    simp only [hrpc]
    simp only [jsonIsStr]
    simp only [beq_self_eq_true]
    simp only [if_true, ite_true]
    simp only [hid, hm, hp]
  rw [Wrapper.handle_post, hbody]

theorem wrapper_route_executeTool (env : ExecEnv) (rid : Json) (pfs : List (String × Json)) :
    Wrapper.rpcRoute env rid (Json.str "executeTool") (Json.obj pfs) =
      .ok (match Wrapper.executeToolBranch env rid ((jsonLookup pfs "toolName").getD (Json.str ""))
               ((jsonLookup pfs "toolParams").getD (Json.obj [])) with
       | .ok r => r
       | .error e => rpcError rid (-32000) (.str ("Error executing tool: " ++ e.msg))) := by
  simp only [Wrapper.rpcRoute, jsonIsStr, pyDictGetD_obj, except_bind_ok]
  simp only [beq_self_eq_true, if_true, ite_true]
  norm_num
  cases Wrapper.executeToolBranch env rid ((jsonLookup pfs "toolName").getD (Json.str ""))
      ((jsonLookup pfs "toolParams").getD (Json.obj [])) <;>
    simp [except_pure]

theorem wrapper_route_unknownMethod (env : ExecEnv) (rid pv : Json) (m : String)
    (h1 : m ≠ "initialize") (h2 : m ≠ "getMetadata")
    (h3 : m ≠ "getToolSpec") (h4 : m ≠ "executeTool") :
    Wrapper.rpcRoute env rid (Json.str m) pv =
      .ok (rpcError rid (-32601) (.str ("Method not found: " ++ m))) := by
  have b1 : (m == "initialize") = false := by simp [h1]
  have b2 : (m == "getMetadata") = false := by simp [h2]
  have b3 : (m == "getToolSpec") = false := by simp [h3]
  have b4 : (m == "executeTool") = false := by simp [h4]
  simp only [Wrapper.rpcRoute, jsonIsStr, b1, b2, b3, b4, Bool.false_eq_true,
    if_false, ite_false, pyStr, except_pure]

/-! ### Branch-level lemmas -/

theorem stdio_tools_keys (env : ExecEnv) : (Stdio.TOOLS env).map Prod.fst = toolKeys := rfl

theorem wrapper_tools_keys (env : ExecEnv) : (Wrapper.TOOLS env).map Prod.fst = toolKeys := rfl

theorem toolKeys_cases (tn : String) (h : toolKeys.contains tn = true) :
    tn = "radius_version" ∨ tn = "radius_list_applications" ∨
    tn = "radius_show_application" ∨ tn = "radius_deploy_application" := by
  have h2 : tn ∈ toolKeys := List.mem_of_elem_eq_true h
  simpa [toolKeys] using h2

theorem rpcResult_id (rid r : Json) : (rpcResult rid r).lookupKey "id" = some rid := rfl

theorem rpcError_id (rid : Json) (code : Int) (msg : Json) :
    (rpcError rid code msg).lookupKey "id" = some rid := rfl

theorem stdio_execute_degraded (env : ExecEnv) (tn : String) (p : Json)
    (hav : env.radAvailable = false) (hkey : toolKeys.contains tn = true) :
    Stdio.execute_radius_command env (Json.str tn) p =
      .ok (Stdio.degradedResult (Json.str tn)) := by
  simp only [Stdio.execute_radius_command, stdio_tools_keys, pyInKeys_str, except_bind_ok]
  simp only [hkey, Bool.true_eq_false, if_false, ite_false]
  simp only [except_pure, except_bind_ok]
  simp only [hav, if_true, ite_true, except_pure]

theorem wrapper_execute_degraded (env : ExecEnv) (tn : String) (p : Json)
    (hav : env.radAvailable = false) (hkey : toolKeys.contains tn = true) :
    Wrapper.execute_radius_command env (Json.str tn) p =
      .ok (Stdio.degradedResult (Json.str tn)) := by
  simp only [Wrapper.execute_radius_command, wrapper_tools_keys, pyInKeys_str, except_bind_ok]
  simp only [hkey, Bool.true_eq_false, if_false, ite_false]
  simp only [except_pure, except_bind_ok]
  simp only [hav, if_true, ite_true, except_pure]

theorem degraded_hasKey_output (v : Json) :
    (Stdio.degradedResult v).hasKey "output" = true := rfl

theorem degraded_hasKey_error (v : Json) :
    (Stdio.degradedResult v).hasKey "error" = true := rfl

theorem stdio_executeToolBranch_err (env : ExecEnv) (rid tp res : Json) (tn : String)
    (hkey : toolKeys.contains tn = true)
    (hres : Stdio.execute_radius_command env (Json.str tn) tp = Except.ok res)
    (herr : res.hasKey "error" = true) :
    Stdio.executeToolBranch env rid (Json.str tn) tp =
      .ok (if env.radAvailable = false then rpcResult rid res
           else rpcError rid (-32000) (res.getD "error" Json.null)) := by
  simp only [Stdio.executeToolBranch, stdio_tools_keys, pyInKeys_str, except_bind_ok]
  simp only [hkey, if_true, ite_true]
  simp only [hres, except_bind_ok]
  simp only [herr, if_true, ite_true]
  by_cases hav : env.radAvailable = false <;> simp [hav, except_pure]

theorem stdio_executeToolBranch_noerr (env : ExecEnv) (rid tp res : Json) (tn : String)
    (hkey : toolKeys.contains tn = true)
    (hres : Stdio.execute_radius_command env (Json.str tn) tp = Except.ok res)
    (herr : res.hasKey "error" = false) :
    Stdio.executeToolBranch env rid (Json.str tn) tp = .ok (rpcResult rid res) := by
  simp only [Stdio.executeToolBranch, stdio_tools_keys, pyInKeys_str, except_bind_ok]
  simp only [hkey, if_true, ite_true]
  simp only [hres, except_bind_ok]
  simp only [herr, Bool.false_eq_true, if_false, ite_false, except_pure]

theorem wrapper_executeToolBranch_err (env : ExecEnv) (rid tp res : Json) (tn : String)
    (hkey : toolKeys.contains tn = true)
    (hres : Wrapper.execute_radius_command env (Json.str tn) tp = Except.ok res)
    (herr : res.hasKey "error" = true) :
    Wrapper.executeToolBranch env rid (Json.str tn) tp =
      .ok (if env.radAvailable = false then rpcResult rid res
           else rpcError rid (-32000) (res.getD "error" Json.null)) := by
  simp only [Wrapper.executeToolBranch, wrapper_tools_keys, pyInKeys_str, except_bind_ok]
  simp only [hkey, if_true, ite_true]
  simp only [hres, except_bind_ok]
  simp only [herr, if_true, ite_true]
  by_cases hav : env.radAvailable = false <;> simp [hav, except_pure]

theorem stdio_executeToolBranch_unknown (env : ExecEnv) (rid tp tnv : Json)
    (hhash : pyHashable tnv = true)
    (hnk : ∀ s, tnv = Json.str s → toolKeys.contains s = false) :
    Stdio.executeToolBranch env rid tnv tp =
      .ok (rpcError rid (-32602) (.str ("Unknown tool: " ++ pyStr tnv))) := by
  cases tnv with
  | str s =>
      have hc := hnk s rfl
      simp only [Stdio.executeToolBranch, stdio_tools_keys, pyInKeys_str, except_bind_ok]
      simp only [hc, Bool.false_eq_true, if_false, ite_false, except_pure, pyStr]
  | null =>
      simp only [Stdio.executeToolBranch, stdio_tools_keys, pyInKeys, except_bind_ok]
      simp only [Bool.false_eq_true, if_false, ite_false, except_pure, pyStr]
  | bool b =>
      cases b <;>
        simp only [Stdio.executeToolBranch, stdio_tools_keys, pyInKeys, except_bind_ok,
          Bool.false_eq_true, if_false, ite_false, except_pure, pyStr]
  | num n =>
      simp only [Stdio.executeToolBranch, stdio_tools_keys, pyInKeys, except_bind_ok]
      simp only [Bool.false_eq_true, if_false, ite_false, except_pure, pyStr]
  | arr xs => simp [pyHashable] at hhash
  | obj fs => simp [pyHashable] at hhash

theorem stdio_executeToolBranch_ok_id (env : ExecEnv) (rid tnv tp resp : Json)
    (h : Stdio.executeToolBranch env rid tnv tp = Except.ok resp) :
    resp.lookupKey "id" = some rid := by
  cases tnv with
  | arr xs => simp [Stdio.executeToolBranch, pyInKeys, except_bind_error] at h
  | obj fs => simp [Stdio.executeToolBranch, pyInKeys, except_bind_error] at h
  | null =>
      have heq : Stdio.executeToolBranch env rid Json.null tp =
          .ok (rpcError rid (-32602) (Json.str "Unknown tool: None")) := rfl
      rw [heq] at h
      cases h
      exact rpcError_id rid (-32602) (Json.str "Unknown tool: None")
  | bool b =>
      cases b with
      | false =>
          have heq : Stdio.executeToolBranch env rid (Json.bool false) tp =
              .ok (rpcError rid (-32602) (Json.str "Unknown tool: False")) := rfl
          rw [heq] at h
          cases h
          exact rpcError_id rid (-32602) (Json.str "Unknown tool: False")
      | true =>
          have heq : Stdio.executeToolBranch env rid (Json.bool true) tp =
              .ok (rpcError rid (-32602) (Json.str "Unknown tool: True")) := rfl
          rw [heq] at h
          cases h
          exact rpcError_id rid (-32602) (Json.str "Unknown tool: True")
  | num n =>
      have heq : Stdio.executeToolBranch env rid (Json.num n) tp =
          .ok (rpcError rid (-32602) (Json.str ("Unknown tool: " ++ toString n))) := rfl
      rw [heq] at h
      cases h
      exact rpcError_id rid (-32602) (Json.str ("Unknown tool: " ++ toString n))
  | str s =>
      simp only [Stdio.executeToolBranch, stdio_tools_keys, pyInKeys_str, except_bind_ok] at h
      by_cases hc : toolKeys.contains s = true
      · simp only [hc, if_true, ite_true] at h
        cases hex : Stdio.execute_radius_command env (Json.str s) tp with
        | error e => rw [hex] at h; simp [except_bind_error] at h
        | ok res =>
            rw [hex] at h
            simp only [except_bind_ok] at h
            by_cases herr : res.hasKey "error" = true
            · simp only [herr, if_true, ite_true] at h
              by_cases hav : env.radAvailable = false
              · simp only [hav, if_true, ite_true, except_pure, Except.ok.injEq] at h
                subst h
                exact rpcResult_id rid res
              · simp only [hav, Bool.true_eq_false, if_false, ite_false, except_pure,
                  Except.ok.injEq] at h
                subst h
                exact rpcError_id rid (-32000) (res.getD "error" Json.null)
            · simp only [herr, Bool.false_eq_true, if_false, ite_false, except_pure,
                Except.ok.injEq] at h
              subst h
              exact rpcResult_id rid res
      · simp only [hc, Bool.false_eq_true, if_false, ite_false, except_pure,
          Except.ok.injEq] at h
        subst h
        exact rpcError_id rid (-32602) (Json.str ("Unknown tool: " ++ pyStr (Json.str s)))

theorem stdio_getToolSpecBranch_known (env : ExecEnv) (rid : Json) (tn : String)
    (h : toolKeys.contains tn = true) :
    ∃ tool : Stdio.RadiusTool,
      Stdio.getToolSpecBranch env rid (Json.str tn) =
        .ok (rpcResult rid (Stdio.toolSpecResult (Json.str tn) tool)) := by
  rcases toolKeys_cases tn h with h4 | h4 | h4 | h4 <;> subst h4 <;> exact ⟨_, rfl⟩

theorem stdio_getToolSpecBranch_unknown (env : ExecEnv) (rid tnv : Json)
    (hhash : pyHashable tnv = true)
    (hnk : ∀ s, tnv = Json.str s → toolKeys.contains s = false) :
    Stdio.getToolSpecBranch env rid tnv =
      .ok (rpcError rid (-32602) (.str ("Unknown tool: " ++ pyStr tnv))) := by
  cases tnv with
  | str s =>
      have hc := hnk s rfl
      simp only [Stdio.getToolSpecBranch, stdio_tools_keys, pyInKeys_str, except_bind_ok]
      simp only [hc, Bool.false_eq_true, if_false, ite_false, except_pure, pyStr]
  | null =>
      simp only [Stdio.getToolSpecBranch, stdio_tools_keys, pyInKeys, except_bind_ok]
      simp only [Bool.false_eq_true, if_false, ite_false, except_pure, pyStr]
  | bool b =>
      cases b <;>
        simp only [Stdio.getToolSpecBranch, stdio_tools_keys, pyInKeys, except_bind_ok,
          Bool.false_eq_true, if_false, ite_false, except_pure, pyStr]
  | num n =>
      simp only [Stdio.getToolSpecBranch, stdio_tools_keys, pyInKeys, except_bind_ok]
      simp only [Bool.false_eq_true, if_false, ite_false, except_pure, pyStr]
  | arr xs => simp [pyHashable] at hhash
  | obj fs => simp [pyHashable] at hhash

theorem stdio_getToolSpecBranch_arr (env : ExecEnv) (rid : Json) (xs : List Json) :
    Stdio.getToolSpecBranch env rid (Json.arr xs) =
      .error (.typeError "unhashable type: 'list'") := rfl

theorem toolSpecResult_name (tool_name : Json) (tool : Stdio.RadiusTool) :
    (Stdio.toolSpecResult tool_name tool).lookupKey "name" = some tool_name := rfl

theorem stdio_getToolSpecBranch_objCase (env : ExecEnv) (rid : Json)
    (fs : List (String × Json)) :
    Stdio.getToolSpecBranch env rid (Json.obj fs) =
      .error (.typeError "unhashable type: 'dict'") := rfl

theorem stdio_executeToolBranch_arr (env : ExecEnv) (rid tp : Json) (xs : List Json) :
    Stdio.executeToolBranch env rid (Json.arr xs) tp =
      .error (.typeError "unhashable type: 'list'") := rfl

theorem stdio_executeToolBranch_objCase (env : ExecEnv) (rid tp : Json)
    (fs : List (String × Json)) :
    Stdio.executeToolBranch env rid (Json.obj fs) tp =
      .error (.typeError "unhashable type: 'dict'") := rfl

theorem json_isObj_exists (j : Json) (h : j.isObj = true) : ∃ fs, j = Json.obj fs := by
  cases j <;> first
    | exact ⟨_, rfl⟩
    | simp [Json.isObj] at h

theorem runPhase_isObj (env : ExecEnv) (tnv : Json) (args : List Json) :
    (Stdio.runPhase env tnv args).isObj = true := by
  unfold Stdio.runPhase
  split
  · rfl
  · split
    · rfl
    · dsimp only
      split
      · split
        · rfl
        · rfl
      · rfl

theorem runPhase_obj (env : ExecEnv) (tnv : Json) (args : List Json) :
    ∃ fs, Stdio.runPhase env tnv args = Json.obj fs :=
  json_isObj_exists _ (runPhase_isObj env tnv args)

theorem pure_runPhase_obj (env : ExecEnv) (tnv : Json) (args : List Json) :
    ∃ fs, (pure (Stdio.runPhase env tnv args) : Except PyErr Json) =
      Except.ok (Json.obj fs) := by
  obtain ⟨fs, h⟩ := runPhase_obj env tnv args
  exact ⟨fs, by rw [except_pure, h]⟩

/-! ## Claims -/

/-- Claim C4: a JSON-RPC 2.0 request whose `id` is missing (`dict.get`
yields `None`, also for an explicit `null`) and whose method name starts
with `notifications/` is a notification: `handle_request` returns no
response and the stdio main loop writes nothing to stdout. -/
theorem C4_notifications_suppressed (env : ExecEnv) (fields : List (String × Json)) (m : String)
    (hrpc : (jsonLookup fields "jsonrpc").getD Json.null = Json.str "2.0")
    (hid : (jsonLookup fields "id").getD Json.null = Json.null)
    (hm : (jsonLookup fields "method").getD (Json.str "") = Json.str m)
    (hpre : strStartsWith m "notifications/" = true) :
    Stdio.handle_request env (Json.obj fields) = none ∧
    Stdio.emittedResponses env (Json.obj fields) = [] := by
  have h := stdio_notification_none env fields m hrpc hid hm hpre
  exact ⟨h, by simp [Stdio.emittedResponses, h]⟩

/-- Witness for C4 at the concrete notification
`{"jsonrpc":"2.0","method":"notifications/initialized"}`. -/
theorem C4_witness :
    (jsonLookup [("jsonrpc", Json.str "2.0"),
        ("method", Json.str "notifications/initialized")] "id").getD Json.null = Json.null ∧
    strStartsWith "notifications/initialized" "notifications/" = true ∧
    Stdio.handle_request envFound (Json.obj [("jsonrpc", Json.str "2.0"),
      ("method", Json.str "notifications/initialized")]) = none ∧
    Stdio.emittedResponses envFound (Json.obj [("jsonrpc", Json.str "2.0"),
      ("method", Json.str "notifications/initialized")]) = [] := by
  refine ⟨rfl, by decide, ?_⟩
  exact C4_notifications_suppressed envFound _ "notifications/initialized" rfl rfl rfl (by decide)

/-- Counterexample for claim C7: the notification request
`{"jsonrpc":"2.0","method":"notifications/initialized"}` has a method
outside the four supported ones, yet the stdio dispatcher produces NO
response at all — not a `-32601` error response as the claim demands. -/
theorem C7_counterexample :
    ("notifications/initialized" ∉ ["initialize", "getMetadata", "getToolSpec", "executeTool"]) ∧
    Stdio.handle_request envFound (Json.obj [("jsonrpc", Json.str "2.0"),
      ("method", Json.str "notifications/initialized")]) = none :=
  ⟨by decide, rfl⟩

/-- Claim C7 (amended): for a JSON-RPC 2.0 request whose method is a
string other than the four supported ones, the stdio dispatcher answers
`-32601` provided the request is not suppressed as a notification
(`id` present or method outside `notifications/`), while the wrapper
dispatcher — which has no notification concept — answers `-32601`
unconditionally. -/
theorem C7_method_not_found (env : ExecEnv) (fields : List (String × Json))
    (m : String) (rid : Json)
    (hrpc : (jsonLookup fields "jsonrpc").getD Json.null = Json.str "2.0")
    (hm : (jsonLookup fields "method").getD (Json.str "") = Json.str m)
    (hrid : (jsonLookup fields "id").getD Json.null = rid)
    (h1 : m ≠ "initialize") (h2 : m ≠ "getMetadata")
    (h3 : m ≠ "getToolSpec") (h4 : m ≠ "executeTool") :
    (¬(rid = Json.null ∧ strStartsWith m "notifications/" = true) →
       Stdio.handle_request env (Json.obj fields) =
         some (rpcError rid (-32601) (.str ("Method not found: " ++ m)))) ∧
    Wrapper.handle_post env (Json.obj fields) =
      rpcError rid (-32601) (.str ("Method not found: " ++ m)) := by
  constructor
  · intro hnotif
    have hnn : (if jsonIsNull rid = true then pyStartsWith (Json.str m) "notifications/"
        else pure false) = Except.ok false := by
      by_cases hn : jsonIsNull rid = true
      · have hrnull : rid = Json.null := by cases rid <;> simp_all [jsonIsNull]
        have hsw : strStartsWith m "notifications/" = false := by
          cases hq : strStartsWith m "notifications/"
          · rfl
          · exact absurd ⟨hrnull, hq⟩ hnotif
        simp [hn, pyStartsWith_str, hsw]
      · have hn2 : jsonIsNull rid = false := by
          cases hq : jsonIsNull rid
          · rfl
          · exact absurd hq hn
        exact notif_check_of_not_null rid _ hn2
    rw [stdio_to_route env fields rid (Json.str m)
      ((jsonLookup fields "params").getD (Json.obj [])) hrpc hrid hm rfl hnn]
    rw [stdio_route_unknownMethod env rid _ m h1 h2 h3 h4]
  · rw [wrapper_to_route env fields rid (Json.str m)
      ((jsonLookup fields "params").getD (Json.obj [])) hrpc hrid hm rfl]
    rw [wrapper_route_unknownMethod env rid _ m h1 h2 h3 h4]

/-- Witness for C7 at the concrete request
`{"jsonrpc":"2.0","id":3,"method":"bogus"}`. -/
theorem C7_witness :
    Stdio.handle_request envFound (Json.obj [("jsonrpc", Json.str "2.0"), ("id", Json.num 3),
        ("method", Json.str "bogus")]) =
      some (rpcError (Json.num 3) (-32601) (Json.str "Method not found: bogus")) ∧
    Wrapper.handle_post envFound (Json.obj [("jsonrpc", Json.str "2.0"), ("id", Json.num 3),
        ("method", Json.str "bogus")]) =
      rpcError (Json.num 3) (-32601) (Json.str "Method not found: bogus") := by
  have h := C7_method_not_found envFound
    [("jsonrpc", Json.str "2.0"), ("id", Json.num 3), ("method", Json.str "bogus")]
    "bogus" (Json.num 3) rfl rfl rfl (by decide) (by decide) (by decide) (by decide)
  exact ⟨h.1 (by rintro ⟨hq, -⟩; cases hq), h.2⟩

/-- Counterexample for claim C2: a `getToolSpec` request whose
`params.toolName` is the (unhashable) array `[]` — certainly not a key
of the registry — is answered with the catch-all bare
`{"error": ...}` object produced by the dispatcher's outer
`except Exception` handler, not with a `-32602` JSON-RPC error. -/
theorem C2_counterexample :
    Stdio.handle_request envFound (Json.obj [("jsonrpc", Json.str "2.0"), ("id", Json.num 6),
        ("method", Json.str "getToolSpec"), ("params", Json.obj [("toolName", Json.arr [])])]) =
      some (Json.obj [("error",
        Json.str "Error processing request: unhashable type: 'list'")]) ∧
    (∀ rid msg, Json.obj [("error",
        Json.str "Error processing request: unhashable type: 'list'")] ≠
      rpcError rid (-32602) msg) := by
  refine ⟨rfl, ?_⟩
  intro rid msg hq
  simp [rpcError] at hq

/-- Claim C2 (amended): for a `getToolSpec` or `executeTool` request
whose `params.toolName` is a primitive JSON value (string, number,
boolean or null) that is not a key of the registry, the response is a
`-32602` error; an unhashable `toolName` (array or object) instead
trips the exception handlers — a bare `{"error": ...}` object for
`getToolSpec`, a `-32000` error for `executeTool` — and in no case does
the dispatcher crash. -/
theorem C2_unknown_tool (env : ExecEnv) (fields pfs : List (String × Json))
    (m : String) (rid tnv : Json)
    (hrpc : (jsonLookup fields "jsonrpc").getD Json.null = Json.str "2.0")
    (hm : (jsonLookup fields "method").getD (Json.str "") = Json.str m)
    (hmm : m = "getToolSpec" ∨ m = "executeTool")
    (hp : (jsonLookup fields "params").getD (Json.obj []) = Json.obj pfs)
    (hrid : (jsonLookup fields "id").getD Json.null = rid)
    (htn : (jsonLookup pfs "toolName").getD (Json.str "") = tnv) :
    (pyHashable tnv = true → (∀ s, tnv = Json.str s → toolKeys.contains s = false) →
       Stdio.handle_request env (Json.obj fields) =
         some (rpcError rid (-32602) (.str ("Unknown tool: " ++ pyStr tnv)))) ∧
    (pyHashable tnv = false → m = "getToolSpec" →
       ∃ msg, Stdio.handle_request env (Json.obj fields) =
         some (Json.obj [("error", Json.str msg)])) ∧
    (pyHashable tnv = false → m = "executeTool" →
       ∃ msg, Stdio.handle_request env (Json.obj fields) =
         some (rpcError rid (-32000) (Json.str msg))) := by
  refine ⟨?_, ?_, ?_⟩
  · intro hhash hnk
    rcases hmm with hq | hq <;> subst hq
    · rw [stdio_to_route env fields rid (Json.str "getToolSpec") (Json.obj pfs)
        hrpc hrid hm hp (notif_check_of_method rid _ (by decide))]
      rw [stdio_route_getToolSpec, htn]
      rw [stdio_getToolSpecBranch_unknown env rid tnv hhash hnk]
      rfl
    · rw [stdio_to_route env fields rid (Json.str "executeTool") (Json.obj pfs)
        hrpc hrid hm hp (notif_check_of_method rid _ (by decide))]
      rw [stdio_route_executeTool, htn]
      rw [stdio_executeToolBranch_unknown env rid _ tnv hhash hnk]
  · intro hhash hq
    subst hq
    rw [stdio_to_route env fields rid (Json.str "getToolSpec") (Json.obj pfs)
      hrpc hrid hm hp (notif_check_of_method rid _ (by decide))]
    rw [stdio_route_getToolSpec, htn]
    cases tnv with
    | arr xs =>
        exact ⟨"Error processing request: unhashable type: 'list'",
          by rw [stdio_getToolSpecBranch_arr]; rfl⟩
    | obj fs2 =>
        exact ⟨"Error processing request: unhashable type: 'dict'",
          by rw [stdio_getToolSpecBranch_objCase]; rfl⟩
    | null => simp [pyHashable] at hhash
    | bool b => simp [pyHashable] at hhash
    | num n => simp [pyHashable] at hhash
    | str s => simp [pyHashable] at hhash
  · intro hhash hq
    subst hq
    rw [stdio_to_route env fields rid (Json.str "executeTool") (Json.obj pfs)
      hrpc hrid hm hp (notif_check_of_method rid _ (by decide))]
    rw [stdio_route_executeTool, htn]
    cases tnv with
    | arr xs =>
        exact ⟨"Error executing tool: unhashable type: 'list'",
          by rw [stdio_executeToolBranch_arr]; rfl⟩
    | obj fs2 =>
        exact ⟨"Error executing tool: unhashable type: 'dict'",
          by rw [stdio_executeToolBranch_objCase]; rfl⟩
    | null => simp [pyHashable] at hhash
    | bool b => simp [pyHashable] at hhash
    | num n => simp [pyHashable] at hhash
    | str s => simp [pyHashable] at hhash

/-- Witness for C2 at the concrete request
`{"jsonrpc":"2.0","id":4,"method":"getToolSpec","params":{"toolName":"nope"}}`. -/
theorem C2_witness :
    Stdio.handle_request envFound (Json.obj [("jsonrpc", Json.str "2.0"), ("id", Json.num 4),
        ("method", Json.str "getToolSpec"), ("params", Json.obj [("toolName", Json.str "nope")])]) =
      some (rpcError (Json.num 4) (-32602) (Json.str ("Unknown tool: " ++ pyStr (Json.str "nope")))) := by
  have h := C2_unknown_tool envFound
    [("jsonrpc", Json.str "2.0"), ("id", Json.num 4), ("method", Json.str "getToolSpec"),
     ("params", Json.obj [("toolName", Json.str "nope")])]
    [("toolName", Json.str "nope")] "getToolSpec" (Json.num 4) (Json.str "nope")
    rfl rfl (Or.inl rfl) rfl rfl rfl
  exact h.1 rfl (by intro s hq; cases hq; decide)

/-- Claim C10: a `getToolSpec` or `executeTool` request whose `params`
object lacks the `toolName` key entirely defaults the tool name to the
empty string, which is not in the registry, so the dispatcher answers
`-32602` (`"Unknown tool: "`) rather than raising. -/
theorem C10_missing_toolName (env : ExecEnv) (fields pfs : List (String × Json))
    (m : String) (rid : Json)
    (hrpc : (jsonLookup fields "jsonrpc").getD Json.null = Json.str "2.0")
    (hm : (jsonLookup fields "method").getD (Json.str "") = Json.str m)
    (hmm : m = "getToolSpec" ∨ m = "executeTool")
    (hp : (jsonLookup fields "params").getD (Json.obj []) = Json.obj pfs)
    (hrid : (jsonLookup fields "id").getD Json.null = rid)
    (habs : jsonLookup pfs "toolName" = none) :
    Stdio.handle_request env (Json.obj fields) =
      some (rpcError rid (-32602) (Json.str "Unknown tool: ")) := by
  have htn : (jsonLookup pfs "toolName").getD (Json.str "") = Json.str "" := by
    rw [habs]; rfl
  have hnk : ∀ s, (Json.str "" : Json) = Json.str s → toolKeys.contains s = false := by
    intro s hq
    cases hq
    decide
  rcases hmm with hq | hq <;> subst hq
  · rw [stdio_to_route env fields rid (Json.str "getToolSpec") (Json.obj pfs)
      hrpc hrid hm hp (notif_check_of_method rid _ (by decide))]
    rw [stdio_route_getToolSpec, htn]
    rw [stdio_getToolSpecBranch_unknown env rid (Json.str "") rfl hnk]
    rfl
  · rw [stdio_to_route env fields rid (Json.str "executeTool") (Json.obj pfs)
      hrpc hrid hm hp (notif_check_of_method rid _ (by decide))]
    rw [stdio_route_executeTool, htn]
    rw [stdio_executeToolBranch_unknown env rid _ (Json.str "") rfl hnk]
    rfl

theorem register_of_contains (hub : MainSrv.SseHub) (cid : String)
    (h : MainSrv.hubContains hub cid = true) :
    MainSrv.registerClient hub cid = hub := by
  simp [MainSrv.registerClient, h]

theorem register_of_not_contains (hub : MainSrv.SseHub) (cid : String)
    (h : MainSrv.hubContains hub cid = false) :
    MainSrv.registerClient hub cid = hub ++ [(cid, [])] := by
  simp [MainSrv.registerClient, h]

theorem hubContains_register_self (hub : MainSrv.SseHub) (cid : String) :
    MainSrv.hubContains (MainSrv.registerClient hub cid) cid = true := by
  by_cases hc : MainSrv.hubContains hub cid = true
  · rw [register_of_contains hub cid hc]
    exact hc
  · have hc2 : MainSrv.hubContains hub cid = false := by
      cases hq : MainSrv.hubContains hub cid
      · rfl
      · exact absurd hq hc
    rw [register_of_not_contains hub cid hc2]
    simp [MainSrv.hubContains, List.any_append]

theorem hubContains_unregister (hub : MainSrv.SseHub) (cid : String) :
    MainSrv.hubContains (MainSrv.unregisterClient hub cid) cid = false := by
  by_cases hc : MainSrv.hubContains hub cid = true
  · have hc3 : (hub.any fun p => p.1 == cid) = true := hc
    simp only [MainSrv.unregisterClient, MainSrv.hubContains, hc3, if_true, ite_true]
    cases hany : (hub.filter (fun p => p.1 != cid)).any (fun p => p.1 == cid)
    · rfl
    · exfalso
      obtain ⟨x, hxmem, hx⟩ := List.any_eq_true.mp hany
      have hxne := (List.mem_filter.mp hxmem).2
      simp only [bne_iff_ne, ne_eq] at hxne
      exact hxne (by simpa using hx)
  · have hc2 : MainSrv.hubContains hub cid = false := by
      cases hq : MainSrv.hubContains hub cid
      · rfl
      · exact absurd hq hc
    simp only [MainSrv.unregisterClient, hc2, Bool.false_eq_true, if_false, ite_false]

theorem filter_key_nil_of_not_contains (hub : MainSrv.SseHub) (cid : String)
    (h : MainSrv.hubContains hub cid = false) :
    hub.filter (fun p => p.1 == cid) = [] := by
  rw [List.filter_eq_nil_iff]
  intro a ha
  intro hq
  have : hub.any (fun p => p.1 == cid) = true := List.any_eq_true.mpr ⟨a, ha, hq⟩
  rw [MainSrv.hubContains] at h
  rw [h] at this
  cases this

/-- Claim C8: in `main.py`'s SSE registry, registering the same client
id twice yields one session with the same queue (the second
registration is a no-op), and pushing a message for an id that was
never registered, or has been unregistered, leaves the registry
untouched (a silent no-op). -/
theorem C8_sse_hub (hub hub2 : MainSrv.SseHub) (cid : String) (msg : Json)
    (h : MainSrv.hubContains hub cid = false) :
    MainSrv.registerClient (MainSrv.registerClient hub2 cid) cid =
      MainSrv.registerClient hub2 cid ∧
    ((MainSrv.registerClient (MainSrv.registerClient hub cid) cid).filter
        (fun p => p.1 == cid)).length = 1 ∧
    MainSrv.pushMessage hub cid msg = hub ∧
    MainSrv.pushMessage (MainSrv.unregisterClient hub2 cid) cid msg =
      MainSrv.unregisterClient hub2 cid := by
  refine ⟨register_of_contains _ cid (hubContains_register_self hub2 cid), ?_, ?_, ?_⟩
  · rw [register_of_contains _ cid (hubContains_register_self hub cid)]
    rw [register_of_not_contains hub cid h]
    rw [List.filter_append]
    rw [filter_key_nil_of_not_contains hub cid h]
    simp
  · simp [MainSrv.pushMessage, h]
  · simp [MainSrv.pushMessage, hubContains_unregister hub2 cid]

/-- Witness for C8 at a concrete registry. -/
theorem C8_witness :
    MainSrv.hubContains [("other", [])] "c1" = false ∧
    (MainSrv.registerClient (MainSrv.registerClient [("c1", [Json.null])] "c1") "c1" =
       MainSrv.registerClient [("c1", [Json.null])] "c1" ∧
     ((MainSrv.registerClient (MainSrv.registerClient [("other", [])] "c1") "c1").filter
         (fun p => p.1 == "c1")).length = 1 ∧
     MainSrv.pushMessage [("other", [])] "c1" Json.null = [("other", [])] ∧
     MainSrv.pushMessage (MainSrv.unregisterClient [("c1", [Json.null])] "c1") "c1" Json.null =
       MainSrv.unregisterClient [("c1", [Json.null])] "c1") :=
  ⟨by decide, C8_sse_hub [("other", [])] [("c1", [Json.null])] "c1" Json.null (by decide)⟩

/-- Counterexample for claim C5: `main.py`'s runner `execute_radius_tool`
does raise to its caller — for the registered tool
`radius_show_application` with an empty parameter mapping it raises
`ValueError("Application name is required")` instead of returning a
`ToolResult` with its `error` field set. -/
theorem C5_counterexample :
    MainSrv.execute_radius_tool envFound "radius_show_application" (Json.obj []) =
      Except.error (PyErr.valueError "Application name is required") := rfl

/-- Claim C5 (amended): the stdio server's runner
`execute_radius_command` never raises: for every tool name and every
parameter mapping it returns a `ToolResult` object (failures are
reported through the `error` field); the Flask variant's
`execute_radius_tool`, by contrast, raises
ValueError/RuntimeError (see the counterexample). -/
theorem C5_stdio_runner_never_raises (env : ExecEnv) (tn : String)
    (fields : List (String × Json)) :
    ∃ fs, Stdio.execute_radius_command env (Json.str tn) (Json.obj fields) =
      Except.ok (Json.obj fs) := by
  by_cases hk : toolKeys.contains tn = true
  · by_cases hav : env.radAvailable = false
    · exact ⟨_, stdio_execute_degraded env tn _ hav hk⟩
    · have hav2 : env.radAvailable = true := by
        cases hq : env.radAvailable
        · exact absurd hq hav
        · rfl
      rcases toolKeys_cases tn hk with h | h | h | h <;> subst h
      · have hkc : toolKeys.contains "radius_version" = true := by decide
        have hts : Stdio.toolsSubscript env (Json.str "radius_version") =
            Except.ok ⟨"radius_version",
              unavailNote "Get the Radius CLI version" env.radAvailable,
              env.radPath.getD "rad", ["version"]⟩ := rfl
        simp only [Stdio.execute_radius_command]
        simp only [stdio_tools_keys, pyInKeys_str, except_bind_ok]
        simp only [hkc, Bool.true_eq_false, if_false, ite_false]
        simp only [hav2, Bool.true_eq_false, if_false, ite_false]
        simp only [hts, except_bind_ok]
        have hb1 : jsonIsStr (Json.str "radius_version") "radius_list_applications" = false := by
          decide
        have hb2 : jsonIsStr (Json.str "radius_version") "radius_show_application" = false := by
          decide
        have hb3 : jsonIsStr (Json.str "radius_version") "radius_deploy_application" = false := by
          decide
        simp only [hb1, hb2, hb3, Bool.false_eq_true, if_false, ite_false]
        exact pure_runPhase_obj env _ _
      · have hkc : toolKeys.contains "radius_list_applications" = true := by decide
        have hts : Stdio.toolsSubscript env (Json.str "radius_list_applications") =
            Except.ok ⟨"radius_list_applications",
              unavailNote "List all Radius applications" env.radAvailable,
              env.radPath.getD "rad", ["app", "list"]⟩ := rfl
        simp only [Stdio.execute_radius_command]
        simp only [stdio_tools_keys, pyInKeys_str, except_bind_ok]
        simp only [hkc, Bool.true_eq_false, if_false, ite_false]
        simp only [hav2, Bool.true_eq_false, if_false, ite_false]
        simp only [hts, except_bind_ok]
        have hb1 : jsonIsStr (Json.str "radius_list_applications")
            "radius_list_applications" = true := by decide
        simp only [hb1, if_true, ite_true]
        cases htr : pyTruthy (Json.obj fields) <;>
          simp only [htr, Bool.false_eq_true, if_false, ite_false, if_true, ite_true] <;>
          simp only [pyDictGetD_obj, except_bind_ok] <;>
          split_ifs <;>
          exact pure_runPhase_obj env _ _
      · have hkc : toolKeys.contains "radius_show_application" = true := by decide
        have hts : Stdio.toolsSubscript env (Json.str "radius_show_application") =
            Except.ok ⟨"radius_show_application",
              unavailNote "Get details of a Radius application" env.radAvailable,
              env.radPath.getD "rad", ["app", "show"]⟩ := rfl
        simp only [Stdio.execute_radius_command]
        simp only [stdio_tools_keys, pyInKeys_str, except_bind_ok]
        simp only [hkc, Bool.true_eq_false, if_false, ite_false]
        simp only [hav2, Bool.true_eq_false, if_false, ite_false]
        simp only [hts, except_bind_ok]
        have hb1 : jsonIsStr (Json.str "radius_show_application")
            "radius_list_applications" = false := by decide
        have hb2 : jsonIsStr (Json.str "radius_show_application")
            "radius_show_application" = true := by decide
        simp only [hb1, Bool.false_eq_true, if_false, ite_false, hb2, if_true, ite_true]
        cases htr : pyTruthy (Json.obj fields) <;>
          simp only [htr, Bool.false_eq_true, if_false, ite_false, if_true, ite_true] <;>
          simp only [pyDictGetD_obj, except_bind_ok] <;>
          split_ifs <;>
          first
            | exact ⟨_, rfl⟩
            | exact pure_runPhase_obj env _ _
      · have hkc : toolKeys.contains "radius_deploy_application" = true := by decide
        have hts : Stdio.toolsSubscript env (Json.str "radius_deploy_application") =
            Except.ok ⟨"radius_deploy_application",
              unavailNote "Deploy a Radius application" env.radAvailable,
              env.radPath.getD "rad", ["deploy"]⟩ := rfl
        simp only [Stdio.execute_radius_command]
        simp only [stdio_tools_keys, pyInKeys_str, except_bind_ok]
        simp only [hkc, Bool.true_eq_false, if_false, ite_false]
        simp only [hav2, Bool.true_eq_false, if_false, ite_false]
        simp only [hts, except_bind_ok]
        have hb1 : jsonIsStr (Json.str "radius_deploy_application")
            "radius_list_applications" = false := by decide
        have hb2 : jsonIsStr (Json.str "radius_deploy_application")
            "radius_show_application" = false := by decide
        have hb3 : jsonIsStr (Json.str "radius_deploy_application")
            "radius_deploy_application" = true := by decide
        simp only [hb1, hb2, Bool.false_eq_true, if_false, ite_false, hb3, if_true, ite_true]
        cases htr : pyTruthy (Json.obj fields) <;>
          simp only [htr, Bool.false_eq_true, if_false, ite_false, if_true, ite_true] <;>
          simp only [pyDictGetD_obj, except_bind_ok] <;>
          split_ifs <;>
          first
            | exact ⟨_, rfl⟩
            | exact pure_runPhase_obj env _ _
  · have hk2 : toolKeys.contains tn = false := by
      cases hq : toolKeys.contains tn
      · rfl
      · exact absurd hq hk
    refine ⟨[("error", Json.str ("Unknown tool: " ++ pyStr (Json.str tn)))], ?_⟩
    simp only [Stdio.execute_radius_command]
    simp only [stdio_tools_keys, pyInKeys_str, except_bind_ok]
    simp only [hk2, eq_self_iff_true, if_true, ite_true, except_pure]

/-- Claim C6: when the `rad` runner capability is available, the
`executeTool` request for `radius_show_application` with empty
`toolParams` (scenario 2 of the spec; the required `name` parameter is
missing) is answered with a `-32000` error — one of the two codes the
claim allows — whose message contains the word "required", and the
response echoes the request id `"2"`. -/
theorem C6_scenario2 (env : ExecEnv) (hav : env.radAvailable = true) :
    Stdio.handle_request env (Json.obj [("jsonrpc", Json.str "2.0"), ("id", Json.str "2"),
        ("method", Json.str "executeTool"),
        ("params", Json.obj [("toolName", Json.str "radius_show_application"),
                             ("toolParams", Json.obj [])])]) =
      some (rpcError (Json.str "2") (-32000) (Json.str "Application name is required")) ∧
    (∃ pre post, "Application name is required" = pre ++ "required" ++ post) := by
  obtain ⟨rp, runf, parsef⟩ := env
  obtain ⟨q, hq⟩ : ∃ q, rp = some q := by
    cases hrp : rp
    · rw [hrp] at hav
      simp [ExecEnv.radAvailable] at hav
    · exact ⟨_, rfl⟩
  subst hq
  exact ⟨rfl, ⟨"Application name is ", "", by decide⟩⟩

/-- Witness for C6 in the concrete environment where `rad` was found. -/
theorem C6_witness :
    envFound.radAvailable = true ∧
    Stdio.handle_request envFound (Json.obj [("jsonrpc", Json.str "2.0"), ("id", Json.str "2"),
        ("method", Json.str "executeTool"),
        ("params", Json.obj [("toolName", Json.str "radius_show_application"),
                             ("toolParams", Json.obj [])])]) =
      some (rpcError (Json.str "2") (-32000) (Json.str "Application name is required")) :=
  ⟨rfl, (C6_scenario2 envFound rfl).1⟩

/-- Claim C1: for an `executeTool` request naming a registered tool
whose execution returns a failed `ToolResult` (its `error` field set),
both dispatchers answer a `-32000` error carrying that `error` string as
the message — except when the runner capability is globally unavailable
(`rad` not found at startup), in which case execution can only have
failed with the degraded mock result, and that `ToolResult` (carrying
both `output` and `error`) is returned as a successful `result`. -/
theorem C1_executeTool_failure_routing (env : ExecEnv) (fields pfs : List (String × Json))
    (rid : Json) (tn : String) (res resW : Json)
    (hrpc : (jsonLookup fields "jsonrpc").getD Json.null = Json.str "2.0")
    (hm : (jsonLookup fields "method").getD (Json.str "") = Json.str "executeTool")
    (hp : (jsonLookup fields "params").getD (Json.obj []) = Json.obj pfs)
    (hrid : (jsonLookup fields "id").getD Json.null = rid)
    (htool : (jsonLookup pfs "toolName").getD (Json.str "") = Json.str tn)
    (hkey : toolKeys.contains tn = true)
    (hres : Stdio.execute_radius_command env (Json.str tn)
      ((jsonLookup pfs "toolParams").getD (Json.obj [])) = Except.ok res)
    (herr : res.hasKey "error" = true)
    (hresW : Wrapper.execute_radius_command env (Json.str tn)
      ((jsonLookup pfs "toolParams").getD (Json.obj [])) = Except.ok resW)
    (herrW : resW.hasKey "error" = true) :
    (env.radAvailable = true →
       Stdio.handle_request env (Json.obj fields) =
         some (rpcError rid (-32000) (res.getD "error" Json.null)) ∧
       Wrapper.handle_post env (Json.obj fields) =
         rpcError rid (-32000) (resW.getD "error" Json.null)) ∧
    (env.radAvailable = false →
       Stdio.handle_request env (Json.obj fields) = some (rpcResult rid res) ∧
       Wrapper.handle_post env (Json.obj fields) = rpcResult rid resW ∧
       res.hasKey "output" = true ∧ resW.hasKey "output" = true) := by
  have hnn := notif_check_of_method rid "executeTool" (by decide)
  have hst := stdio_to_route env fields rid (Json.str "executeTool") (Json.obj pfs)
    hrpc hrid hm hp hnn
  rw [stdio_route_executeTool, htool,
    stdio_executeToolBranch_err env rid _ res tn hkey hres herr] at hst
  have hwt := wrapper_to_route env fields rid (Json.str "executeTool") (Json.obj pfs)
    hrpc hrid hm hp
  rw [wrapper_route_executeTool, htool,
    wrapper_executeToolBranch_err env rid _ resW tn hkey hresW herrW] at hwt
  constructor
  · intro havT
    constructor
    · rw [hst]
      simp [havT]
    · rw [hwt]
      simp [havT]
  · intro havF
    have hd : res = Stdio.degradedResult (Json.str tn) := by
      have h2 := stdio_execute_degraded env tn
        ((jsonLookup pfs "toolParams").getD (Json.obj [])) havF hkey
      rw [hres] at h2
      injection h2
    have hdW : resW = Stdio.degradedResult (Json.str tn) := by
      have h2 := wrapper_execute_degraded env tn
        ((jsonLookup pfs "toolParams").getD (Json.obj [])) havF hkey
      rw [hresW] at h2
      injection h2
    refine ⟨?_, ?_, ?_, ?_⟩
    · rw [hst]
      simp [havF]
    · rw [hwt]
      simp [havF]
    · rw [hd]
      exact degraded_hasKey_output _
    · rw [hdW]
      exact degraded_hasKey_output _

/-- Witness for C1: in the environment where `rad` is missing, the
degraded failure of `radius_version` is answered as a successful result
by both dispatchers. -/
theorem C1_witness :
    Stdio.handle_request envMissing (Json.obj [("jsonrpc", Json.str "2.0"),
        ("id", Json.str "9"), ("method", Json.str "executeTool"),
        ("params", Json.obj [("toolName", Json.str "radius_version"),
                             ("toolParams", Json.obj [])])]) =
      some (rpcResult (Json.str "9") (Stdio.degradedResult (Json.str "radius_version"))) ∧
    Wrapper.handle_post envMissing (Json.obj [("jsonrpc", Json.str "2.0"),
        ("id", Json.str "9"), ("method", Json.str "executeTool"),
        ("params", Json.obj [("toolName", Json.str "radius_version"),
                             ("toolParams", Json.obj [])])]) =
      rpcResult (Json.str "9") (Stdio.degradedResult (Json.str "radius_version")) ∧
    (Stdio.degradedResult (Json.str "radius_version")).hasKey "output" = true ∧
    (Stdio.degradedResult (Json.str "radius_version")).hasKey "output" = true :=
  (C1_executeTool_failure_routing envMissing
    [("jsonrpc", Json.str "2.0"), ("id", Json.str "9"), ("method", Json.str "executeTool"),
     ("params", Json.obj [("toolName", Json.str "radius_version"), ("toolParams", Json.obj [])])]
    [("toolName", Json.str "radius_version"), ("toolParams", Json.obj [])]
    (Json.str "9") "radius_version"
    (Stdio.degradedResult (Json.str "radius_version"))
    (Stdio.degradedResult (Json.str "radius_version"))
    rfl rfl rfl rfl rfl (by decide) rfl rfl rfl rfl).2 rfl

/-- Claim C9: every tool name appearing in the `tools` list of a
`getMetadata` response is accepted by a subsequent `getToolSpec`
request, which succeeds with a `result` whose `name` field equals the
queried name. -/
theorem C9_metadata_toolspec_roundtrip (env : ExecEnv) (id1 id2 : Json) (n : String)
    (hmem : n ∈ responseToolNames (Stdio.handle_request env
      (Json.obj [("jsonrpc", Json.str "2.0"), ("id", id1),
                 ("method", Json.str "getMetadata")]))) :
    ∃ spec : Json,
      Stdio.handle_request env (Json.obj [("jsonrpc", Json.str "2.0"), ("id", id2),
        ("method", Json.str "getToolSpec"),
        ("params", Json.obj [("toolName", Json.str n)])]) =
          some (rpcResult id2 spec) ∧
      spec.lookupKey "name" = some (Json.str n) := by
  have hmr : Stdio.handle_request env (Json.obj [("jsonrpc", Json.str "2.0"), ("id", id1),
      ("method", Json.str "getMetadata")]) = some (rpcResult id1 (Stdio.METADATA env)) := by
    rw [stdio_to_route env [("jsonrpc", Json.str "2.0"), ("id", id1),
        ("method", Json.str "getMetadata")] id1 (Json.str "getMetadata") (Json.obj [])
      rfl rfl rfl rfl (notif_check_of_method id1 _ (by decide))]
    rw [stdio_route_getMetadata]
  rw [hmr] at hmem
  have hnames : responseToolNames (some (rpcResult id1 (Stdio.METADATA env))) = toolKeys := rfl
  rw [hnames] at hmem
  have key : ∀ nn : String, toolKeys.contains nn = true →
      ∃ spec : Json,
        Stdio.handle_request env (Json.obj [("jsonrpc", Json.str "2.0"), ("id", id2),
          ("method", Json.str "getToolSpec"),
          ("params", Json.obj [("toolName", Json.str nn)])]) =
            some (rpcResult id2 spec) ∧
        spec.lookupKey "name" = some (Json.str nn) := by
    intro nn hknn
    obtain ⟨tool, htool⟩ := stdio_getToolSpecBranch_known env id2 nn hknn
    have h2 := stdio_to_route env [("jsonrpc", Json.str "2.0"), ("id", id2),
        ("method", Json.str "getToolSpec"),
        ("params", Json.obj [("toolName", Json.str nn)])] id2 (Json.str "getToolSpec")
      (Json.obj [("toolName", Json.str nn)]) rfl rfl rfl rfl
      (notif_check_of_method id2 _ (by decide))
    rw [stdio_route_getToolSpec] at h2
    have hlk : (jsonLookup [("toolName", Json.str nn)] "toolName").getD (Json.str "") =
        Json.str nn := rfl
    rw [hlk, htool] at h2
    exact ⟨Stdio.toolSpecResult (Json.str nn) tool, by rw [h2]; rfl, toolSpecResult_name _ _⟩
  exact key n (List.elem_eq_true_of_mem hmem)

/-- Counterexample for claim C3: a JSON-RPC 2.0 request with id `7` and
array-shaped `params` (legal JSON-RPC positional parameters) makes the
`initialize` handler raise AttributeError on `params.get`, so the outer
catch-all answers a bare `{"error": ...}` object that carries NO `id`
field at all — the response id does not echo the request id. -/
theorem C3_counterexample :
    Stdio.handle_request envFound (Json.obj [("jsonrpc", Json.str "2.0"), ("id", Json.num 7),
        ("method", Json.str "initialize"), ("params", Json.arr [])]) =
      some (Json.obj [("error",
        Json.str "Error processing request: 'list' object has no attribute 'get'")]) ∧
    (Json.obj [("error",
        Json.str "Error processing request: 'list' object has no attribute 'get'")]).lookupKey
      "id" = none ∧
    (Json.obj [("jsonrpc", Json.str "2.0"), ("id", Json.num 7), ("method", Json.str "initialize"),
        ("params", Json.arr [])]).lookupKey "id" = some (Json.num 7) :=
  ⟨rfl, rfl, rfl⟩

/-- Claim C3 (amended): for a JSON-RPC 2.0 request whose method is a
string, whose `params` (when present) is an object, and whose
`toolName` parameter (relevant to `getToolSpec`) is a primitive value,
every response produced by the stdio dispatcher carries an `id` equal
to the request's id (`None`/`null` included); requests outside this
shape can instead be answered by the catch-all bare `{"error": ...}`
object, which has no id (see the counterexample). -/
theorem C3_response_id_echo (env : ExecEnv) (fields pfs : List (String × Json))
    (m : String) (resp : Json)
    (hrpc : (jsonLookup fields "jsonrpc").getD Json.null = Json.str "2.0")
    (hm : (jsonLookup fields "method").getD (Json.str "") = Json.str m)
    (hp : (jsonLookup fields "params").getD (Json.obj []) = Json.obj pfs)
    (htn : pyHashable ((jsonLookup pfs "toolName").getD (Json.str "")) = true)
    (hresp : Stdio.handle_request env (Json.obj fields) = some resp) :
    resp.lookupKey "id" = some ((jsonLookup fields "id").getD Json.null) := by
  by_cases e1 : m = "initialize"
  · subst e1
    rw [stdio_to_route env fields ((jsonLookup fields "id").getD Json.null)
      (Json.str "initialize") (Json.obj pfs) hrpc rfl hm hp
      (notif_check_of_method _ _ (by decide))] at hresp
    rw [stdio_route_initMethod] at hresp
    have h3 : some (rpcResult ((jsonLookup fields "id").getD Json.null)
        (Stdio.initializeResult env
          ((jsonLookup pfs "protocolVersion").getD (Json.str "2023-07-01")))) = some resp :=
      hresp
    injection h3 with h4
    rw [← h4]
    exact rpcResult_id _ _
  by_cases e2 : m = "getMetadata"
  · subst e2
    rw [stdio_to_route env fields ((jsonLookup fields "id").getD Json.null)
      (Json.str "getMetadata") (Json.obj pfs) hrpc rfl hm hp
      (notif_check_of_method _ _ (by decide))] at hresp
    rw [stdio_route_getMetadata] at hresp
    have h3 : some (rpcResult ((jsonLookup fields "id").getD Json.null) (Stdio.METADATA env)) =
        some resp := hresp
    injection h3 with h4
    rw [← h4]
    exact rpcResult_id _ _
  by_cases e3 : m = "getToolSpec"
  · subst e3
    rw [stdio_to_route env fields ((jsonLookup fields "id").getD Json.null)
      (Json.str "getToolSpec") (Json.obj pfs) hrpc rfl hm hp
      (notif_check_of_method _ _ (by decide))] at hresp
    rw [stdio_route_getToolSpec] at hresp
    revert htn hresp
    generalize (jsonLookup pfs "toolName").getD (Json.str "") = tnv
    intro htn hresp
    cases tnv with
    | arr xs => simp [pyHashable] at htn
    | obj fs2 => simp [pyHashable] at htn
    | str s =>
        by_cases hks : toolKeys.contains s = true
        · obtain ⟨tool, htool⟩ := stdio_getToolSpecBranch_known env
            ((jsonLookup fields "id").getD Json.null) s hks
          rw [htool] at hresp
          have h3 : some (rpcResult ((jsonLookup fields "id").getD Json.null)
              (Stdio.toolSpecResult (Json.str s) tool)) = some resp := hresp
          injection h3 with h4
          rw [← h4]
          exact rpcResult_id _ _
        · have hks2 : toolKeys.contains s = false := by
            cases hq : toolKeys.contains s
            · rfl
            · exact absurd hq hks
          rw [stdio_getToolSpecBranch_unknown env _ (Json.str s) rfl
            (by intro s2 hq; cases hq; exact hks2)] at hresp
          have h3 : some (rpcError ((jsonLookup fields "id").getD Json.null) (-32602)
              (Json.str ("Unknown tool: " ++ pyStr (Json.str s)))) = some resp := hresp
          injection h3 with h4
          rw [← h4]
          exact rpcError_id _ _ _
    | null =>
        rw [stdio_getToolSpecBranch_unknown env _ Json.null rfl
          (by intro s2 hq; cases hq)] at hresp
        have h3 : some (rpcError ((jsonLookup fields "id").getD Json.null) (-32602)
            (Json.str ("Unknown tool: " ++ pyStr Json.null))) = some resp := hresp
        injection h3 with h4
        rw [← h4]
        exact rpcError_id _ _ _
    | bool b =>
        rw [stdio_getToolSpecBranch_unknown env _ (Json.bool b) rfl
          (by intro s2 hq; cases hq)] at hresp
        have h3 : some (rpcError ((jsonLookup fields "id").getD Json.null) (-32602)
            (Json.str ("Unknown tool: " ++ pyStr (Json.bool b)))) = some resp := hresp
        injection h3 with h4
        rw [← h4]
        exact rpcError_id _ _ _
    | num nv =>
        rw [stdio_getToolSpecBranch_unknown env _ (Json.num nv) rfl
          (by intro s2 hq; cases hq)] at hresp
        have h3 : some (rpcError ((jsonLookup fields "id").getD Json.null) (-32602)
            (Json.str ("Unknown tool: " ++ pyStr (Json.num nv)))) = some resp := hresp
        injection h3 with h4
        rw [← h4]
        exact rpcError_id _ _ _
  by_cases e4 : m = "executeTool"
  · subst e4
    rw [stdio_to_route env fields ((jsonLookup fields "id").getD Json.null)
      (Json.str "executeTool") (Json.obj pfs) hrpc rfl hm hp
      (notif_check_of_method _ _ (by decide))] at hresp
    rw [stdio_route_executeTool] at hresp
    rcases hbr : Stdio.executeToolBranch env ((jsonLookup fields "id").getD Json.null)
        ((jsonLookup pfs "toolName").getD (Json.str ""))
        ((jsonLookup pfs "toolParams").getD (Json.obj [])) with e | r2
    · rw [hbr] at hresp
      have h3 : some (rpcError ((jsonLookup fields "id").getD Json.null) (-32000)
          (Json.str ("Error executing tool: " ++ e.msg))) = some resp := hresp
      injection h3 with h4
      rw [← h4]
      exact rpcError_id _ _ _
    · rw [hbr] at hresp
      have h3 : some r2 = some resp := hresp
      injection h3 with h4
      rw [← h4]
      exact stdio_executeToolBranch_ok_id env _ _ _ r2 hbr
  · by_cases hnotif : ((jsonLookup fields "id").getD Json.null = Json.null ∧
        strStartsWith m "notifications/" = true)
    · have hnone := stdio_notification_none env fields m hrpc hnotif.1 hm hnotif.2
      rw [hnone] at hresp
      cases hresp
    · have hnn : (if jsonIsNull ((jsonLookup fields "id").getD Json.null) = true
          then pyStartsWith (Json.str m) "notifications/"
          else pure false) = Except.ok false := by
        by_cases hn : jsonIsNull ((jsonLookup fields "id").getD Json.null) = true
        · have hrnull : (jsonLookup fields "id").getD Json.null = Json.null := by
            cases hq : (jsonLookup fields "id").getD Json.null <;> simp_all [jsonIsNull]
          have hsw : strStartsWith m "notifications/" = false := by
            cases hq : strStartsWith m "notifications/"
            · rfl
            · exact absurd ⟨hrnull, hq⟩ hnotif
          simp [hn, pyStartsWith_str, hsw]
        · have hn2 : jsonIsNull ((jsonLookup fields "id").getD Json.null) = false := by
            cases hq : jsonIsNull ((jsonLookup fields "id").getD Json.null)
            · rfl
            · exact absurd hq hn
          exact notif_check_of_not_null _ _ hn2
      rw [stdio_to_route env fields ((jsonLookup fields "id").getD Json.null)
        (Json.str m) (Json.obj pfs) hrpc rfl hm hp hnn] at hresp
      rw [stdio_route_unknownMethod env _ _ m e1 e2 e3 e4] at hresp
      have h3 : some (rpcError ((jsonLookup fields "id").getD Json.null) (-32601)
          (Json.str ("Method not found: " ++ m))) = some resp := hresp
      injection h3 with h4
      rw [← h4]
      exact rpcError_id _ _ _

/-- Witness for C3 at a concrete `getMetadata` request with id `"1"`. -/
theorem C3_witness :
    pyHashable ((jsonLookup ([] : List (String × Json)) "toolName").getD (Json.str "")) = true ∧
    (rpcResult (Json.str "1") (Stdio.METADATA envFound)).lookupKey "id" =
      some ((jsonLookup [("jsonrpc", Json.str "2.0"), ("id", Json.str "1"),
        ("method", Json.str "getMetadata")] "id").getD Json.null) :=
  by
  refine ⟨rfl, ?_⟩
  have hresp : Stdio.handle_request envFound (Json.obj [("jsonrpc", Json.str "2.0"),
      ("id", Json.str "1"), ("method", Json.str "getMetadata")]) =
      some (rpcResult (Json.str "1") (Stdio.METADATA envFound)) := by
    rw [stdio_to_route envFound [("jsonrpc", Json.str "2.0"), ("id", Json.str "1"),
        ("method", Json.str "getMetadata")] (Json.str "1") (Json.str "getMetadata")
        (Json.obj []) rfl rfl rfl rfl (notif_check_of_method _ _ (by decide))]
    rw [stdio_route_getMetadata]
  exact C3_response_id_echo envFound
    [("jsonrpc", Json.str "2.0"), ("id", Json.str "1"), ("method", Json.str "getMetadata")]
    [] "getMetadata" (rpcResult (Json.str "1") (Stdio.METADATA envFound))
    rfl rfl rfl rfl hresp

/-- Witness for C9 at `radius_version` in the concrete environment. -/
theorem C9_witness :
    "radius_version" ∈ responseToolNames (Stdio.handle_request envFound
      (Json.obj [("jsonrpc", Json.str "2.0"), ("id", Json.str "1"),
                 ("method", Json.str "getMetadata")])) ∧
    (∃ spec : Json,
      Stdio.handle_request envFound (Json.obj [("jsonrpc", Json.str "2.0"),
        ("id", Json.str "2"), ("method", Json.str "getToolSpec"),
        ("params", Json.obj [("toolName", Json.str "radius_version")])]) =
          some (rpcResult (Json.str "2") spec) ∧
      spec.lookupKey "name" = some (Json.str "radius_version")) :=
  ⟨by decide,
   C9_metadata_toolspec_roundtrip envFound (Json.str "1") (Json.str "2") "radius_version"
     (by decide)⟩

/-- Witness for C10 at the concrete request
`{"jsonrpc":"2.0","id":5,"method":"executeTool","params":{}}`. -/
theorem C10_witness :
    jsonLookup ([] : List (String × Json)) "toolName" = none ∧
    Stdio.handle_request envFound (Json.obj [("jsonrpc", Json.str "2.0"), ("id", Json.num 5),
        ("method", Json.str "executeTool"), ("params", Json.obj [])]) =
      some (rpcError (Json.num 5) (-32602) (Json.str "Unknown tool: ")) := by
  refine ⟨rfl, ?_⟩
  exact C10_missing_toolName envFound
    [("jsonrpc", Json.str "2.0"), ("id", Json.num 5), ("method", Json.str "executeTool"),
     ("params", Json.obj [])]
    [] "executeTool" (Json.num 5) rfl rfl (Or.inr rfl) rfl rfl rfl
